import Mathlib

/-!
Verification development for the `myopl_1` interpreter (`src/basic.py`).

The development shallowly embeds the pipeline of `basic.py` — lexer,
recursive-descent parser with speculative backtracking, value model with a
reference store for the mutable backing storage (symbol tables and list
element sequences), and the tree-walking evaluator — and proves the
specification claims against it.

Modelling conventions:
* Python numbers (int / float) are modelled by `PyFloat`: an exact rational
  (`MRat`) or the IEEE infinity that Python float conversion can produce.
  Conversion of a decimal literal to a host float is modelled exactly below
  the IEEE-754 double overflow threshold and as `inf` at or above it; host
  rounding inside the representable range is not modelled (no claim depends
  on it).
* Unbounded loops and recursion take a fuel argument; exhaustion is the
  distinguished `timeout` outcome, never conflated with a result.
* Unhandled host (Python) exceptions such as `AttributeError` or
  `NameError` are the distinguished `crash` outcome.
* The `constants` and `misc` modules of the repository are not under `src/`;
  the character classes, keyword list and error-message table they provide
  are modelled from the spec (each such definition carries a doc comment
  saying so).  Error messages are represented by their `ERRORS` table keys;
  distinct keys stand for the distinct human-readable messages.
-/

set_option maxRecDepth 20000

namespace Myopl

/-! ## Exact rational arithmetic (kernel-computable model of Python numbers) -/

/-- Fuel-driven Euclid gcd (kernel-reducible, unlike `Nat.gcd`). -/
def gcdAux : Nat → Nat → Nat → Nat
  | 0, a, _ => a
  | _ + 1, a, 0 => a
  | f + 1, a, b + 1 => gcdAux f (b + 1) (a % (b + 1))

/-- Greatest common divisor. -/
def mgcd (a b : Nat) : Nat := gcdAux (a + b + 1) a b

/-- Exact rational number in lowest terms, `num / den` with `den > 0`.
Models the exact value of a Python int or (finite) float. -/
structure MRat where
  num : Int
  den : Nat
deriving DecidableEq, Repr

/-- Normalising constructor: reduce `n / d` to lowest terms. -/
def MRat.norm (n : Int) (d : Nat) : MRat :=
  if d = 0 then ⟨0, 1⟩
  else
    let g := mgcd n.natAbs d
    ⟨n / (g : Int), d / g⟩

def MRat.ofInt (n : Int) : MRat := ⟨n, 1⟩

def MRat.ofNat (n : Nat) : MRat := ⟨(n : Int), 1⟩

instance : OfNat MRat n := ⟨MRat.ofNat n⟩

def MRat.add (a b : MRat) : MRat :=
  MRat.norm (a.num * (b.den : Int) + b.num * (a.den : Int)) (a.den * b.den)

def MRat.neg (a : MRat) : MRat := ⟨-a.num, a.den⟩

def MRat.sub (a b : MRat) : MRat := a.add b.neg

def MRat.mul (a b : MRat) : MRat := MRat.norm (a.num * b.num) (a.den * b.den)

/-- Exact division; caller guards against a zero divisor. -/
def MRat.div (a b : MRat) : MRat :=
  MRat.norm (a.num * (b.den : Int) * (if b.num < 0 then -1 else 1))
    (a.den * b.num.natAbs)

def MRat.ble (a b : MRat) : Bool := a.num * (b.den : Int) ≤ b.num * (a.den : Int)

def MRat.blt (a b : MRat) : Bool := a.num * (b.den : Int) < b.num * (a.den : Int)

/-- Floor, used by the Python `%` semantics. -/
def MRat.floor (a : MRat) : Int := a.num.fdiv (a.den : Int)

/-- Python `a % b` (sign follows the divisor): `a - b * floor(a / b)`. -/
def MRat.pymod (a b : MRat) : MRat :=
  a.sub (b.mul (MRat.ofInt ((a.div b).floor)))

/-- Truncation toward zero, Python `int(x)` on a finite float. -/
def MRat.trunc (a : MRat) : Int := a.num.tdiv (a.den : Int)

/-- Is the rational an integer? -/
def MRat.isInt (a : MRat) : Bool := a.den = 1

/-- A Python numeric value: an exact finite value or the float infinity
produced by overflowing conversions. -/
inductive PyFloat where
  | finite (q : MRat)
  | inf
deriving DecidableEq, Repr

/-- Model of the IEEE-754 double overflow threshold: `float(s)` yields `inf`
for exact magnitudes at or above `2^1024 - 2^970` (the rounding midpoint
above the largest finite double). -/
def ieeeOverflowThreshold : MRat := ⟨((Nat.pow 2 1024 - Nat.pow 2 970 : Nat) : Int), 1⟩

/-- Model of the IEEE-754 double underflow-to-zero threshold: positive exact
magnitudes at or below `2^(-1075)` convert to `0.0`. -/
def ieeeUnderflowThreshold : MRat := ⟨1, Nat.pow 2 1075⟩

/-- `10^308` as an exact rational (`log10 v >= 308` iff `v >= 10^308` for
positive finite `v`). -/
def tenPow308 : MRat := ⟨((Nat.pow 10 308 : Nat) : Int), 1⟩

/-- `10^(-308)` as an exact rational (`log10 v <= -308` iff
`v <= 10^(-308)` for positive finite `v`). -/
def tenPowNeg308 : MRat := ⟨1, Nat.pow 10 308⟩

/-- Model of Python float conversion applied to an exact nonnegative decimal
value: exact below the overflow threshold, `inf` at or above it, `0.0` below
the underflow-to-zero threshold. -/
def pyFloatOfRat (q : MRat) : PyFloat :=
  if ieeeOverflowThreshold.ble q then .inf
  else if q.num ≠ 0 ∧ q.ble ieeeUnderflowThreshold then .finite ⟨0, 1⟩
  else .finite q

def PyFloat.add : PyFloat → PyFloat → PyFloat
  | .finite a, .finite b => .finite (a.add b)
  | _, _ => .inf

def PyFloat.sub : PyFloat → PyFloat → PyFloat
  | .finite a, .finite b => .finite (a.sub b)
  | _, _ => .inf

def PyFloat.mul : PyFloat → PyFloat → PyFloat
  | .finite a, .finite b => .finite (a.mul b)
  | _, _ => .inf

def PyFloat.isZero : PyFloat → Bool
  | .finite a => a.num = 0
  | .inf => false

/-- Division; only reached with a non-zero divisor (the interpreter checks
first), and never with infinities in any claim-relevant path. -/
def PyFloat.div : PyFloat → PyFloat → PyFloat
  | .finite a, .finite b => .finite (a.div b)
  | _, _ => .inf

def PyFloat.blt : PyFloat → PyFloat → Bool
  | .finite a, .finite b => a.blt b
  | .finite _, .inf => true
  | .inf, _ => false

def PyFloat.bgt (a b : PyFloat) : Bool := PyFloat.blt b a

def PyFloat.ble (a b : PyFloat) : Bool := !PyFloat.blt b a

def PyFloat.bge (a b : PyFloat) : Bool := !PyFloat.blt a b

def PyFloat.beq (a b : PyFloat) : Bool := a = b

/-- Nonnegative: Python `x >= 0`. -/
def PyFloat.nonneg : PyFloat → Bool
  | .finite a => 0 ≤ a.num
  | .inf => true

/-! ## Characters and text constants

`Modelled from the spec:` the repository's `constants` module is not under
`src/`; the character classes below follow §4.1 of the spec (digits,
letters, number characters with `.`/`e`/`E`, two-hex-digit escapes). -/

def spaceChar : Char := Char.ofNat 32
def tabChar : Char := Char.ofNat 9
def newlineChar : Char := Char.ofNat 10
def quoteChar : Char := Char.ofNat 34
def backslashChar : Char := Char.ofNat 92

/-- `Modelled from the spec:` decimal digit characters (`constants.DIGITS`). -/
def DIGITS : List Char := "0123456789".data

/-- `Modelled from the spec:` ASCII letters (`constants.LETTERS`). -/
def LETTERS : List Char :=
  "abcdefghijklmnopqrstuvwxyzABCDEFGHIJKLMNOPQRSTUVWXYZ".data

/-- `Modelled from the spec:` letters and digits (`constants.LETTERS_DIGITS`). -/
def LETTERS_DIGITS : List Char := LETTERS ++ DIGITS

/-- `Modelled from the spec:` characters a number literal may continue with
(`constants.NUMBER_CHARS`): digits, one dot, exponent markers. -/
def NUMBER_CHARS : List Char := DIGITS ++ [Char.ofNat 46, Char.ofNat 101, Char.ofNat 69]

/-- `Modelled from the spec:` hexadecimal digit characters
(`constants.HEX_CHARS`), for `\xHH` escapes. -/
def HEX_CHARS : List Char := DIGITS ++ "abcdefABCDEF".data

/-- `Modelled from the spec:` the escape-character table
(`constants.ESCAPE_CHARACTERS`), mapping the character after a backslash. -/
def ESCAPE_CHARACTERS (c : Char) : Option Char :=
  if c = 'n' then some newlineChar
  else if c = 't' then some tabChar
  else none

/-- `Modelled from the spec:` the human-readable error-message table
(`constants.ERRORS`).  Each message is represented by its key; the spec
guarantees the messages are specific (hence pairwise distinct), which the
key representation preserves. -/
def ERRORS (key : String) : String := key

/-! ## Result carrier for fuel-driven translations

Python loops and recursion are translated with a fuel argument.  `timeout`
is fuel exhaustion (never a program behaviour); `crash` models an unhandled
host exception escaping the interpreter (e.g. `AttributeError`). -/

inductive Res (α : Type) where
  | ok (a : α)
  | crash (msg : String)
  | timeout
deriving Repr

def Res.bind {α β : Type} : Res α → (α → Res β) → Res β
  | .ok a, f => f a
  | .crash m, _ => .crash m
  | .timeout, _ => .timeout

instance : Monad Res where
  pure := .ok
  bind := Res.bind

/-! ## Position (`basic.py` 95-128) -/

/-- Source cursor: byte offset, line, column (`Position`).  The `filename`
and `filetext` fields of the source class are carried only for rendering
error excerpts and are not modelled. -/
structure Position where
  theindex : Int
  linenum : Nat
  column : Int
deriving DecidableEq, Repr

/-- `Position.advance`: advance by one character. -/
def Position.advance (p : Position) (currentChar : Option Char := none) : Position :=
  if currentChar = some newlineChar then
    ⟨p.theindex + 1, p.linenum + 1, 0⟩
  else
    ⟨p.theindex + 1, p.linenum, p.column + 1⟩

/-! ## Errors (`basic.py` 16-87, lexer/parser side) -/

/-- An `Error` as carried by the lexer and parser (`Error` subclasses
without a runtime context). -/
structure PError where
  posStart : Position
  posEnd : Position
  errorName : String
  details : String
deriving DecidableEq, Repr

def IllegalCharError (ps pe : Position) (details : String) : PError :=
  ⟨ps, pe, "Illegal Character", details⟩

def ExpectedCharError (ps pe : Position) (details : String) : PError :=
  ⟨ps, pe, "Expected Character", details⟩

def InvalidSyntaxError (ps pe : Position) (details : String) : PError :=
  ⟨ps, pe, "Invalid Syntax", details⟩

/-! ## Tokens (`basic.py` 135-219) -/

def TOKEN_TYPE_INT : String := "INT"
def TOKEN_TYPE_FLOAT : String := "FLOAT"
def TOKEN_TYPE_STRING : String := "STRING"
def TOKEN_TYPE_IDENTIFIER : String := "IDENTIFIER"
def TOKEN_TYPE_KEYWORD : String := "KEYWORD"
def TOKEN_TYPE_PLUS : String := "PLUS"
def TOKEN_TYPE_MINUS : String := "MINUS"
def TOKEN_TYPE_MULTIPLY : String := "MULTIPLY"
def TOKEN_TYPE_DIVIDE : String := "DIVIDE"
def TOKEN_TYPE_MODULUS : String := "MODULUS"
def TOKEN_TYPE_POWER : String := "POWER"
def TOKEN_TYPE_ASSIGN : String := "ASSIGN"
def TOKEN_TYPE_LPAREN : String := "LPAREN"
def TOKEN_TYPE_RPAREN : String := "RPAREN"
def TOKEN_TYPE_LSQUARE : String := "LSQUARE"
def TOKEN_TYPE_RSQUARE : String := "RSQUARE"
def TOKEN_TYPE_EQUAL_TO : String := "EQUAL_TO"
def TOKEN_TYPE_NOT_EQUAL_TO : String := "NOT_EQUAL_TO"
def TOKEN_TYPE_LESS_THAN : String := "LESS_THAN"
def TOKEN_TYPE_GREATER_THAN : String := "GREATER_THAN"
def TOKEN_TYPE_LESS_THAN_EQUAL_TO : String := "LESS_THAN_AND_EQUALTO"
def TOKEN_TYPE_GREATER_THAN_EQUAL_TO : String := "GREATER_THAN_AND_EQUALTO"
def TOKEN_TYPE_COMMA : String := "COMMA"
def TOKEN_TYPE_ARROW : String := "ARROW"
def TOKEN_TYPE_NEWLINE : String := "NEWLINE"
def TOKEN_TYPE_EOF : String := "EOF"

def COMPARISONS_TOKEN : List String :=
  [TOKEN_TYPE_EQUAL_TO, TOKEN_TYPE_NOT_EQUAL_TO, TOKEN_TYPE_LESS_THAN,
   TOKEN_TYPE_GREATER_THAN, TOKEN_TYPE_LESS_THAN_EQUAL_TO,
   TOKEN_TYPE_GREATER_THAN_EQUAL_TO]

def KEYWORDS : List String :=
  ["VAR", "AND", "OR", "NOT", "IF", "ELIF", "ELSE", "FOR", "TO", "STEP",
   "WHILE", "FUN", "THEN", "END", "RETURN", "CONTINUE", "BREAK", "IMPORT"]

/-- The literal payload of a token: a number or a string (identifier and
keyword tokens carry their spelling). -/
inductive TokenValue where
  | num (n : PyFloat)
  | str (s : String)
deriving DecidableEq, Repr

structure Token where
  type : String
  value : Option TokenValue
  posStart : Position
  posEnd : Position
deriving DecidableEq, Repr

/-- `Token.__init__`: when only `pos_start` is given, `pos_end` is a copy
advanced by one; an explicit `pos_end` overrides it. -/
def Token.make (ttype : String) (value : Option TokenValue)
    (posStart : Position) (posEnd : Option Position) : Token :=
  { type := ttype, value := value, posStart := posStart,
    posEnd := match posEnd with
      | some p => p
      | none => posStart.advance }

/-- `Token.matches`: does the token have this type and (string) value? -/
def Token.matches (t : Token) (ttype : String) (value : String) : Bool :=
  t.type = ttype ∧ t.value = some (.str value)

/-! ## Host numeric conversions used by the lexer -/

def hexVal (c : Char) : Nat :=
  if c.toNat ≥ 97 then c.toNat - 87
  else if c.toNat ≥ 65 then c.toNat - 55
  else c.toNat - 48

def digitsValD (cs : List Char) : Nat :=
  cs.foldl (fun a c => 10 * a + (c.toNat - 48)) 0

/-- Digits-only string to a natural number; `none` on the empty string or a
non-digit (Python `ValueError`). -/
def digitsVal? (cs : List Char) : Option Nat :=
  if cs = [] then none
  else if cs.all (fun c => DIGITS.contains c) then some (digitsValD cs)
  else none

/-- Exact value of a `digits [. digits]` mantissa; `none` when malformed. -/
def mantissaVal? (cs : List Char) : Option MRat :=
  let ip := cs.takeWhile (fun c => c ≠ Char.ofNat 46)
  let rest := cs.drop ip.length
  match rest with
  | [] =>
    if ip ≠ [] ∧ ip.all (fun c => DIGITS.contains c) then
      some (MRat.ofNat (digitsValD ip))
    else none
  | _ :: fp =>
    if fp.contains (Char.ofNat 46) then none
    else if ip = [] ∧ fp = [] then none
    else if ip.all (fun c => DIGITS.contains c) ∧ fp.all (fun c => DIGITS.contains c) then
      some (MRat.norm
        ((digitsValD ip * Nat.pow 10 fp.length + digitsValD fp : Nat) : Int)
        (Nat.pow 10 fp.length))
    else none

/-- Model of Python `int(s)` on the digit strings built by `make_number`. -/
def pyIntConv (s : String) : Option Int :=
  (digitsVal? s.data).map (fun n => (n : Int))

/-- Model of Python `float(s)` on the strings built by `make_number` /
`make_exponent_number` (`digits [. digits] [e|E [+|-] digits]`): the exact
decimal value pushed through IEEE-double conversion (`pyFloatOfRat`);
`none` is Python `ValueError`. -/
def pyFloatConv (s : String) : Option PyFloat :=
  let cs := s.data
  let m := cs.takeWhile (fun c => c ≠ Char.ofNat 101 ∧ c ≠ Char.ofNat 69)
  let rest := cs.drop m.length
  match rest with
  | [] => (mantissaVal? m).map pyFloatOfRat
  | _ :: es =>
    let sgnNeg : Bool := es.head? = some '-'
    let ds := if es.head? = some '-' ∨ es.head? = some '+' then es.tail else es
    match digitsVal? ds with
    | none => none
    | some e =>
      (mantissaVal? m).map fun mq =>
        let scaled :=
          if sgnNeg then MRat.norm mq.num (mq.den * Nat.pow 10 e)
          else MRat.norm (mq.num * ((Nat.pow 10 e : Nat) : Int)) mq.den
        pyFloatOfRat scaled

/-! ## Lexer (`basic.py` 227-688) -/

structure LState where
  text : Array Char
  pos : Position
  currentChar : Option Char
deriving DecidableEq, Repr

/-- `Lexer.advance`. -/
def LState.advance (s : LState) : LState :=
  let p := s.pos.advance s.currentChar
  let cc := if 0 ≤ p.theindex then s.text.get? p.theindex.toNat else none
  { s with pos := p, currentChar := cc }

/-- `Lexer.__init__`: position starts at `(-1, 0, -1)` and is advanced once. -/
def Lexer.init (text : String) : LState :=
  LState.advance { text := text.data.toArray, pos := ⟨-1, 0, -1⟩, currentChar := none }

/-- Result triple of the token-building helpers: `(state, token?, error?)`. -/
abbrev LexTok := LState × Option Token × Option PError

/-- Digit-collection loop of `make_exponent_number`. -/
def makeExponentDigitsLoop : Nat → LState → String → Res (LState × String)
  | 0, _, _ => .timeout
  | f + 1, s, acc =>
    match s.currentChar with
    | some c =>
      if DIGITS.contains c then makeExponentDigitsLoop f s.advance (acc.push c)
      else .ok (s, acc)
    | none => .ok (s, acc)

/-- `Lexer.make_exponent_number` (332-391).  An infinite conversion raises
`OverflowError` (overflow message); a zero value leaves `thelog10`
unassigned, so the `elif` raises an unhandled `NameError`. -/
def makeExponentNumber (fuel : Nat) (numStr : String) (posStart : Position)
    (s : LState) : Res LexTok :=
  let (s, signStr) :=
    match s.currentChar with
    | some c =>
      if c = '+' ∨ c = '-' then (s.advance, String.singleton c) else (s, "")
    | none => (s, "")
  (makeExponentDigitsLoop fuel s "") >>= fun (s, exponentStr) =>
  match pyFloatConv (numStr ++ "e" ++ signStr ++ exponentStr) with
  | none =>
    .ok (s, none, some (InvalidSyntaxError posStart s.pos (ERRORS "exponent_error")))
  | some t =>
    match t with
    | .inf =>
      .ok (s, none, some (InvalidSyntaxError posStart s.pos (ERRORS "exponent_overflow")))
    | .finite q =>
      if q.num = 0 then .crash "NameError: thelog10 referenced before assignment"
      else if tenPow308.ble q then
        .ok (s, none, some (InvalidSyntaxError posStart s.pos (ERRORS "exponent_overflow")))
      else if q.ble tenPowNeg308 then
        .ok (s, none, some (InvalidSyntaxError posStart s.pos (ERRORS "exponent_underflow")))
      else
        .ok (s, some (Token.make TOKEN_TYPE_FLOAT (some (.num t)) posStart (some s.pos)), none)

/-- Character-collection loop of `make_number`; the `Bool` is true when an
`e` / `E` was met (the source then defers to `make_exponent_number`, having
advanced past the marker). -/
def makeNumberLoop : Nat → LState → String → Nat → Res (LState × String × Nat × Bool)
  | 0, _, _, _ => .timeout
  | f + 1, s, numStr, dotCount =>
    match s.currentChar with
    | some c =>
      if NUMBER_CHARS.contains c then
        if c = Char.ofNat 46 then
          if dotCount = 1 then .ok (s, numStr, dotCount, false)
          else makeNumberLoop f s.advance (numStr.push c) 1
        else if c = Char.ofNat 101 ∨ c = Char.ofNat 69 then
          .ok (s.advance, numStr, dotCount, true)
        else makeNumberLoop f s.advance (numStr.push c) dotCount
      else .ok (s, numStr, dotCount, false)
    | none => .ok (s, numStr, dotCount, false)

/-- `Lexer.make_number` (393-457).  The overflow test is translated with the
parenthesisation exactly as written in the source:
`thenumber != 0 and (math.isinf(thenumber) or math.log10(thenumber)) >= 308`.
For an infinite value the disjunction short-circuits to the Python boolean
`True`, and `True >= 308` is `1 >= 308`, i.e. `False` — so an infinite float
literal raises no overflow and is emitted as a FLOAT token. -/
def makeNumber (fuel : Nat) (s : LState) : Res LexTok :=
  let posStart := s.pos
  makeNumberLoop fuel s "" 0 >>= fun (s, numStr, dotCount, expFlag) =>
  if expFlag then makeExponentNumber fuel numStr posStart s
  else
    let thenumber : Option PyFloat :=
      if dotCount = 0 then (pyIntConv numStr).map (fun n => .finite (MRat.ofInt n))
      else pyFloatConv numStr
    match thenumber with
    | none =>
      .ok (s, none, some (InvalidSyntaxError posStart s.pos (ERRORS "number_conversion_error")))
    | some t =>
      let overflow : Bool :=
        !t.isZero && (match t with
          | .inf => decide ((1 : Nat) ≥ 308)
          | .finite q => tenPow308.ble q)
      if overflow then
        .ok (s, none, some (InvalidSyntaxError posStart s.pos (ERRORS "number_overflow")))
      else
        let ttype := if dotCount = 0 then TOKEN_TYPE_INT else TOKEN_TYPE_FLOAT
        .ok (s, some (Token.make ttype (some (.num t)) posStart (some s.pos)), none)

/-- `Lexer.check_the_char` (525-545). -/
def checkTheChar (posStart : Position) (s : LState) : LState × Option Char × Option PError :=
  match s.currentChar with
  | none =>
    (s, none, some (InvalidSyntaxError posStart s.pos (ERRORS "unterminated_string")))
  | some c =>
    if !HEX_CHARS.contains c then
      (s.advance, none,
        some (InvalidSyntaxError posStart s.advance.pos (ERRORS "illegal_hex_char")))
    else (s, some c, none)

/-- `Lexer.handle_hex_value` (505-523). -/
def handleHexValue (posStart : Position) (s : LState) : LState × Option Char × Option PError :=
  let (s, c1?, e?) := checkTheChar posStart s
  match e? with
  | some e => (s, none, some e)
  | none =>
    let s := s.advance
    let (s, c2?, e2?) := checkTheChar posStart s
    match e2? with
    | some e => (s, none, some e)
    | none =>
      let s := s.advance
      match c1?, c2? with
      | some a, some b => (s, some (Char.ofNat (hexVal a * 16 + hexVal b)), none)
      | _, _ => (s, none, none)

/-- Body loop of `make_string` (467-490); returns the collected string, or
the unterminated-string error when the input ends first. -/
def makeStringLoop : Nat → LState → String → Bool → Position →
    Res (LState × Option String × Option PError)
  | 0, _, _, _, _ => .timeout
  | f + 1, s, acc, escFlag, posStart =>
    match s.currentChar with
    | none =>
      .ok (s, none, some (InvalidSyntaxError posStart s.pos (ERRORS "unterminated_string")))
    | some c =>
      if c ≠ quoteChar ∨ escFlag then
        if escFlag ∧ c = 'x' then
          let s := s.advance
          let (s, r?, e?) := handleHexValue posStart s
          match e? with
          | some e => .ok (s, none, some e)
          | none =>
            match r? with
            | some ch => makeStringLoop f s (acc.push ch) false posStart
            | none => .crash "unreachable"
        else if escFlag then
          let mapped := (ESCAPE_CHARACTERS c).getD c
          makeStringLoop f s.advance (acc.push mapped) false posStart
        else if c = backslashChar then
          makeStringLoop f s.advance acc true posStart
        else makeStringLoop f s.advance (acc.push c) false posStart
      else .ok (s, some acc, none)

/-- `Lexer.make_string` (459-503). -/
def makeString (fuel : Nat) (s : LState) : Res LexTok :=
  let posStart := s.pos
  let s := s.advance
  makeStringLoop fuel s "" false posStart >>= fun (s, str?, e?) =>
  match e? with
  | some e => .ok (s, none, some e)
  | none =>
    match str? with
    | some str =>
      let s := s.advance
      .ok (s, some (Token.make TOKEN_TYPE_STRING (some (.str str)) posStart (some s.pos)), none)
    | none => .crash "unreachable"

/-- Character-collection loop of `make_identifier`. -/
def makeIdentifierLoop : Nat → LState → String → Res (LState × String)
  | 0, _, _ => .timeout
  | f + 1, s, acc =>
    match s.currentChar with
    | some c =>
      if (LETTERS_DIGITS ++ ['_']).contains c then
        makeIdentifierLoop f s.advance (acc.push c)
      else .ok (s, acc)
    | none => .ok (s, acc)

/-- `Lexer.make_identifier` (547-562). -/
def makeIdentifier (fuel : Nat) (s : LState) : Res (LState × Token) :=
  let posStart := s.pos
  makeIdentifierLoop fuel s "" >>= fun (s, idStr) =>
  let tokType :=
    if KEYWORDS.contains idStr then TOKEN_TYPE_KEYWORD else TOKEN_TYPE_IDENTIFIER
  .ok (s, Token.make tokType (some (.str idStr)) posStart (some s.pos))

/-- `Lexer.make_minus_or_arrow` (564-574). -/
def makeMinusOrArrow (s : LState) : LState × Token :=
  let posStart := s.pos
  let s := s.advance
  let (s, tokType) :=
    if s.currentChar = some '>' then (s.advance, TOKEN_TYPE_ARROW)
    else (s, TOKEN_TYPE_MINUS)
  (s, Token.make tokType none posStart (some s.pos))

/-- `Lexer.make_not_equals` (576-594); the message paraphrases the source
text (an `=` must follow the `!`). -/
def makeNotEquals (s : LState) : LState × Option Token × Option PError :=
  let posStart := s.pos
  let s := s.advance
  if s.currentChar = some '=' then
    let s := s.advance
    (s, some (Token.make TOKEN_TYPE_NOT_EQUAL_TO none posStart (some s.pos)), none)
  else
    let s := s.advance
    (s, none, some (ExpectedCharError posStart s.pos "= (after !)"))

/-- `Lexer.make_equals` (596-608). -/
def makeEquals (s : LState) : LState × Token :=
  let posStart := s.pos
  let s := s.advance
  let (s, tokType) :=
    if s.currentChar = some '=' then (s.advance, TOKEN_TYPE_EQUAL_TO)
    else (s, TOKEN_TYPE_ASSIGN)
  (s, Token.make tokType none posStart (some s.pos))

/-- `Lexer.make_less_than` (610-622). -/
def makeLessThan (s : LState) : LState × Token :=
  let posStart := s.pos
  let s := s.advance
  let (s, tokType) :=
    if s.currentChar = some '=' then (s.advance, TOKEN_TYPE_LESS_THAN_EQUAL_TO)
    else (s, TOKEN_TYPE_LESS_THAN)
  (s, Token.make tokType none posStart (some s.pos))

/-- `Lexer.make_greater_than` (624-636). -/
def makeGreaterThan (s : LState) : LState × Token :=
  let posStart := s.pos
  let s := s.advance
  let (s, tokType) :=
    if s.currentChar = some '=' then (s.advance, TOKEN_TYPE_GREATER_THAN_EQUAL_TO)
    else (s, TOKEN_TYPE_GREATER_THAN)
  (s, Token.make tokType none posStart (some s.pos))

/-- Body loop of `skip_comment` (654-684). -/
def skipCommentLoop : Nat → Bool → LState → Res (LState × Option PError)
  | 0, _, _ => .timeout
  | f + 1, multi, s =>
    if s.currentChar = some '*' ∧ multi then
      let s := s.advance
      if s.currentChar ≠ some '#' then skipCommentLoop f multi s
      else .ok (s, none)
    else if !multi ∧ (s.currentChar = some newlineChar ∨ s.currentChar = none) then
      .ok (s, none)
    else if s.currentChar = none then
      let ps := s.pos
      let ps := if ps.linenum ≠ 0 then { ps with linenum := ps.linenum - 1 } else ps
      .ok (s, some (InvalidSyntaxError ps s.pos (ERRORS "unterminated_ML_comment")))
    else skipCommentLoop f multi s.advance

/-- `Lexer.skip_comment` (638-688). -/
def skipComment (fuel : Nat) (s : LState) : Res (LState × Option PError) :=
  let s := s.advance
  let multi : Bool := s.currentChar = some '*'
  skipCommentLoop fuel multi s >>= fun (s, e?) =>
  match e? with
  | some e => .ok (s, some e)
  | none => .ok (s.advance, none)

/-- Main loop of `Lexer.make_tokens` (243-330). -/
def makeTokensLoop : Nat → LState → List Token → Res (List Token × Option PError)
  | 0, _, _ => .timeout
  | f + 1, s, tokens =>
    match s.currentChar with
    | none => .ok (tokens ++ [Token.make TOKEN_TYPE_EOF none s.pos none], none)
    | some c =>
      if c = spaceChar ∨ c = tabChar then makeTokensLoop f s.advance tokens
      else if c = '#' then
        skipComment f s >>= fun (s, e?) =>
        match e? with
        | some e => .ok ([], some e)
        | none => makeTokensLoop f s tokens
      else if c = ';' ∨ c = newlineChar then
        makeTokensLoop f s.advance (tokens ++ [Token.make TOKEN_TYPE_NEWLINE none s.pos none])
      else if DIGITS.contains c then
        makeNumber f s >>= fun (s, tok?, e?) =>
        match e? with
        | some e => .ok ([], some e)
        | none =>
          match tok? with
          | some t => makeTokensLoop f s (tokens ++ [t])
          | none => .crash "unreachable"
      else if LETTERS.contains c then
        makeIdentifier f s >>= fun (s, t) => makeTokensLoop f s (tokens ++ [t])
      else if c = quoteChar then
        makeString f s >>= fun (s, tok?, e?) =>
        match e? with
        | some e => .ok ([], some e)
        | none =>
          match tok? with
          | some t => makeTokensLoop f s (tokens ++ [t])
          | none => .crash "unreachable"
      else if c = '+' then
        makeTokensLoop f s.advance (tokens ++ [Token.make TOKEN_TYPE_PLUS none s.pos none])
      else if c = '-' then
        let (s, t) := makeMinusOrArrow s
        makeTokensLoop f s (tokens ++ [t])
      else if c = '*' then
        makeTokensLoop f s.advance (tokens ++ [Token.make TOKEN_TYPE_MULTIPLY none s.pos none])
      else if c = '/' then
        makeTokensLoop f s.advance (tokens ++ [Token.make TOKEN_TYPE_DIVIDE none s.pos none])
      else if c = '%' then
        makeTokensLoop f s.advance (tokens ++ [Token.make TOKEN_TYPE_MODULUS none s.pos none])
      else if c = '^' then
        makeTokensLoop f s.advance (tokens ++ [Token.make TOKEN_TYPE_POWER none s.pos none])
      else if c = '(' then
        makeTokensLoop f s.advance (tokens ++ [Token.make TOKEN_TYPE_LPAREN none s.pos none])
      else if c = ')' then
        makeTokensLoop f s.advance (tokens ++ [Token.make TOKEN_TYPE_RPAREN none s.pos none])
      else if c = '[' then
        makeTokensLoop f s.advance (tokens ++ [Token.make TOKEN_TYPE_LSQUARE none s.pos none])
      else if c = ']' then
        makeTokensLoop f s.advance (tokens ++ [Token.make TOKEN_TYPE_RSQUARE none s.pos none])
      else if c = '!' then
        let (s, tok?, e?) := makeNotEquals s
        match e? with
        | some e => .ok ([], some e)
        | none =>
          match tok? with
          | some t => makeTokensLoop f s (tokens ++ [t])
          | none => .crash "unreachable"
      else if c = '=' then
        let (s, t) := makeEquals s
        makeTokensLoop f s (tokens ++ [t])
      else if c = '<' then
        let (s, t) := makeLessThan s
        makeTokensLoop f s (tokens ++ [t])
      else if c = '>' then
        let (s, t) := makeGreaterThan s
        makeTokensLoop f s (tokens ++ [t])
      else if c = ',' then
        makeTokensLoop f s.advance (tokens ++ [Token.make TOKEN_TYPE_COMMA none s.pos none])
      else
        let posStart := s.pos
        let s := s.advance
        .ok ([], some (IllegalCharError posStart s.pos (String.singleton c)))

/-- `Lexer.make_tokens` applied to a source text. -/
def make_tokens (fuel : Nat) (text : String) : Res (List Token × Option PError) :=
  makeTokensLoop fuel (Lexer.init text) []

/-! ## AST nodes (`basic.py` 696-913) -/

/-- The AST node variants.  Every variant stores its `posStart` / `posEnd`
span, exactly as the Python node classes store `pos_start` / `pos_end`
attributes computed once at construction; the smart constructors
(`NumberNode`, `BinOpNode`, ...) below perform those computations. -/
inductive Node where
  | numberN (token : Token) (posStart posEnd : Position)
  | stringN (token : Token) (posStart posEnd : Position)
  | listN (elementNodes : List Node) (posStart posEnd : Position)
  | varAccess (varNameToken : Token) (posStart posEnd : Position)
  | varAssign (varNameToken : Token) (valueNode : Node) (posStart posEnd : Position)
  | binOp (leftNode : Node) (operatorToken : Token) (rightNode : Node)
      (posStart posEnd : Position)
  | unaryOp (operatorToken : Token) (node : Node) (posStart posEnd : Position)
  | ifN (cases : List (Node × Node × Bool)) (elseCase : Option (Node × Bool))
      (posStart posEnd : Position)
  | forN (varNameToken : Token) (startValueNode endValueNode : Node)
      (stepValueNode : Option Node) (bodyNode : Node) (shouldReturnNone : Bool)
      (posStart posEnd : Position)
  | whileN (conditionNode bodyNode : Node) (shouldReturnNone : Bool)
      (posStart posEnd : Position)
  | funcDef (varNameToken : Option Token) (argNameTokens : List Token)
      (bodyNode : Node) (shouldAutoReturn : Bool) (posStart posEnd : Position)
  | callN (nodeToCall : Node) (argNodes : List Node) (posStart posEnd : Position)
  | returnN (nodeToReturn : Option Node) (posStart posEnd : Position)
  | continueN (posStart posEnd : Position)
  | breakN (posStart posEnd : Position)
  | importN (stringNode : Node) (posStart posEnd : Position)
deriving Repr

/-- An `(condition, body, should_return_none)` case of an `IfNode`. -/
abbrev IfCase := Node × Node × Bool

/-- The `(body, should_return_none)` else-branch of an `IfNode`. -/
abbrev ElseCase := Node × Bool

/-- The `(cases, else_case)` pair threaded between the `if_expr_*` parsers. -/
abbrev CasesPair := List IfCase × Option ElseCase

/-- The stored `pos_start` attribute. -/
def Node.pos_start : Node → Position
  | .numberN _ ps _ => ps
  | .stringN _ ps _ => ps
  | .listN _ ps _ => ps
  | .varAccess _ ps _ => ps
  | .varAssign _ _ ps _ => ps
  | .binOp _ _ _ ps _ => ps
  | .unaryOp _ _ ps _ => ps
  | .ifN _ _ ps _ => ps
  | .forN _ _ _ _ _ _ ps _ => ps
  | .whileN _ _ _ ps _ => ps
  | .funcDef _ _ _ _ ps _ => ps
  | .callN _ _ ps _ => ps
  | .returnN _ ps _ => ps
  | .continueN ps _ => ps
  | .breakN ps _ => ps
  | .importN _ ps _ => ps

/-- The stored `pos_end` attribute. -/
def Node.pos_end : Node → Position
  | .numberN _ _ pe => pe
  | .stringN _ _ pe => pe
  | .listN _ _ pe => pe
  | .varAccess _ _ pe => pe
  | .varAssign _ _ _ pe => pe
  | .binOp _ _ _ _ pe => pe
  | .unaryOp _ _ _ pe => pe
  | .ifN _ _ _ pe => pe
  | .forN _ _ _ _ _ _ _ pe => pe
  | .whileN _ _ _ _ pe => pe
  | .funcDef _ _ _ _ _ pe => pe
  | .callN _ _ _ pe => pe
  | .returnN _ _ pe => pe
  | .continueN _ pe => pe
  | .breakN _ pe => pe
  | .importN _ _ pe => pe

/-- `NumberNode.__init__`. -/
def NumberNode (t : Token) : Node := .numberN t t.posStart t.posEnd

/-- `StringNode.__init__`. -/
def StringNode (t : Token) : Node := .stringN t t.posStart t.posEnd

/-- `ListNode.__init__` (explicit span). -/
def ListNode (elems : List Node) (ps pe : Position) : Node := .listN elems ps pe

/-- `VarAccessNode.__init__`. -/
def VarAccessNode (t : Token) : Node := .varAccess t t.posStart t.posEnd

/-- `VarAssignNode.__init__`: span from the name token to the value end. -/
def VarAssignNode (t : Token) (value : Node) : Node :=
  .varAssign t value t.posStart value.pos_end

/-- `BinOpNode.__init__`: span from the left start to the right end. -/
def BinOpNode (l : Node) (op : Token) (r : Node) : Node :=
  .binOp l op r l.pos_start r.pos_end

/-- `UnaryOpNode.__init__`. -/
def UnaryOpNode (op : Token) (n : Node) : Node :=
  .unaryOp op n op.posStart n.pos_end

/-- `IfNode.__init__`.  Note the quirk copied from the source: without an
else-branch, `pos_end` is the end of the last case's *condition*
(`(self.else_case or self.cases[-1])[0].pos_end`). -/
def IfNode (cases : List IfCase) (elseCase : Option ElseCase) : Node :=
  let ps := match cases.head? with
    | some (c, _, _) => c.pos_start
    | none => ⟨0, 0, 0⟩
  let pe := match elseCase with
    | some (e, _) => e.pos_end
    | none =>
      match cases.getLast? with
      | some (c, _, _) => c.pos_end
      | none => ⟨0, 0, 0⟩
  .ifN cases elseCase ps pe

/-- `ForNode.__init__`. -/
def ForNode (varName : Token) (startV endV : Node) (stepV : Option Node)
    (body : Node) (shouldReturnNone : Bool) : Node :=
  .forN varName startV endV stepV body shouldReturnNone varName.posStart body.pos_end

/-- `WhileNode.__init__`. -/
def WhileNode (cond body : Node) (shouldReturnNone : Bool) : Node :=
  .whileN cond body shouldReturnNone cond.pos_start body.pos_end

/-- `FuncDefNode.__init__`. -/
def FuncDefNode (varName : Option Token) (argNames : List Token) (body : Node)
    (shouldAutoReturn : Bool) : Node :=
  let ps := match varName with
    | some t => t.posStart
    | none =>
      match argNames.head? with
      | some a => a.posStart
      | none => body.pos_start
  .funcDef varName argNames body shouldAutoReturn ps body.pos_end

/-- `CallNode.__init__`. -/
def CallNode (f : Node) (args : List Node) : Node :=
  let pe := match args.getLast? with
    | some a => a.pos_end
    | none => f.pos_end
  .callN f args f.pos_start pe

/-- `ReturnNode.__init__` (explicit span). -/
def ReturnNode (n : Option Node) (ps pe : Position) : Node := .returnN n ps pe

/-- `ContinueNode.__init__` (explicit span). -/
def ContinueNode (ps pe : Position) : Node := .continueN ps pe

/-- `BreakNode.__init__` (explicit span). -/
def BreakNode (ps pe : Position) : Node := .breakN ps pe

/-- `ImportNode.__init__` (explicit span). -/
def ImportNode (s : Node) (ps pe : Position) : Node := .importN s ps pe

/-! ## ParseResult (`basic.py` 921-980) -/

/-- `ParseResult`, generic over the payload (the Python attribute `node`
holds plain nodes in most parsers and tuples in the `if_expr_*` family). -/
structure PResult (α : Type) where
  error : Option PError := none
  node : Option α := none
  lastRegisteredAdvanceCount : Nat := 0
  advanceCount : Nat := 0
  toReverseCount : Nat := 0
deriving Repr

/-- `ParseResult.register_advancement`. -/
def PResult.registerAdvancement {α : Type} (r : PResult α) : PResult α :=
  { r with lastRegisteredAdvanceCount := 1, advanceCount := r.advanceCount + 1 }

/-- `ParseResult.register`: absorb a sub-result's advance count and error,
handing back its node. -/
def PResult.register {α β : Type} (r : PResult α) (other : PResult β) :
    PResult α × Option β :=
  ({ r with
      lastRegisteredAdvanceCount := other.advanceCount
      advanceCount := r.advanceCount + other.advanceCount
      error := match other.error with
        | some e => some e
        | none => r.error },
   other.node)

/-- `ParseResult.try_register`: on error, only record how far to rewind and
hand back `None` — the sub-result's error is discarded. -/
def PResult.tryRegister {α β : Type} (r : PResult α) (other : PResult β) :
    PResult α × Option β :=
  match other.error with
  | some _ => ({ r with toReverseCount := other.advanceCount }, none)
  | none => r.register other

/-- `ParseResult.success`. -/
def PResult.success {α : Type} (r : PResult α) (n : α) : PResult α :=
  { r with node := some n }

/-- `ParseResult.failure`: keep an already-registered error when progress
had been made (`last_registered_advance_count != 0`). -/
def PResult.failure {α : Type} (r : PResult α) (e : PError) : PResult α :=
  if r.error = none ∨ r.lastRegisteredAdvanceCount = 0 then { r with error := some e }
  else r

/-! ## Parser state (`basic.py` 988-1018) -/

structure PState where
  tokens : Array Token
  tokenIndex : Int
  currentToken : Token
deriving Repr

/-- `Parser.update_current_tok`: refresh only while the index is in range
(out-of-range leaves the previous current token in place). -/
def PState.updateCurrentTok (s : PState) : PState :=
  if 0 ≤ s.tokenIndex ∧ s.tokenIndex < (s.tokens.size : Int) then
    { s with currentToken := (s.tokens.get? s.tokenIndex.toNat).getD s.currentToken }
  else s

/-- `Parser.advance`. -/
def PState.advance (s : PState) : PState :=
  PState.updateCurrentTok { s with tokenIndex := s.tokenIndex + 1 }

/-- `Parser.reverse`. -/
def PState.reverse (s : PState) (amount : Nat) : PState :=
  PState.updateCurrentTok { s with tokenIndex := s.tokenIndex - (amount : Int) }

/-- `Parser.__init__`: index `-1`, then one advance.  The dummy current
token mirrors the attribute being unset before the first advance (the
source never reads it in that state; the lexer guarantees at least an EOF
token). -/
def Parser.init (tokens : List Token) : PState :=
  PState.advance
    { tokens := tokens.toArray, tokenIndex := -1,
      currentToken := Token.make TOKEN_TYPE_EOF none ⟨0, 0, 0⟩ none }

/-! ## Parser (`basic.py` 1020-2623)

Every parser translates to a function `fuel → ... → PState →
Res (PState × ParseResult ...)`; recursion and loops decrement the fuel.
The `Res.crash` outcomes mark places where the Python source would raise an
unhandled host exception (`AttributeError` on `None`, tuple-unpacking
`TypeError`). -/

/-- Newline-skipping loop shared by `statements` and
`parse_any_additional_statements`; counts the newlines consumed. -/
def skipNewlinesLoop : Nat → PState → PResult Node → Nat →
    Res (PState × PResult Node × Nat)
  | 0, _, _, _ => .timeout
  | f + 1, s, result, count =>
    if s.currentToken.type = TOKEN_TYPE_NEWLINE then
      skipNewlinesLoop f s.advance result.registerAdvancement (count + 1)
    else .ok (s, result, count)

/-- `Parser.parse_continue` (1214-1235). -/
def parse_continue (inLoop : Bool) (result : PResult Node) (posStart : Position)
    (s : PState) : PState × PResult Node :=
  let result := result.registerAdvancement
  let s := s.advance
  if !inLoop then
    (s, result.failure (InvalidSyntaxError s.currentToken.posStart
      s.currentToken.posEnd (ERRORS "bad_continue")))
  else
    (s, result.success (ContinueNode posStart s.currentToken.posStart))

/-- `Parser.parse_break` (1237-1258). -/
def parse_break (inLoop : Bool) (result : PResult Node) (posStart : Position)
    (s : PState) : PState × PResult Node :=
  let result := result.registerAdvancement
  let s := s.advance
  if !inLoop then
    (s, result.failure (InvalidSyntaxError s.currentToken.posStart
      s.currentToken.posEnd (ERRORS "bad_break")))
  else
    (s, result.success (BreakNode posStart s.currentToken.posStart))

/-- `Parser.duplicate_function_name` (2570-2591): `some` is the errored
4-tuple the source returns, `none` is its implicit `None` (no duplicate).
The message paraphrases the source (a parameter must not reuse the
function's own name). -/
def duplicate_function_name (functionName : Option TokenValue)
    (namesList : List (Option TokenValue)) (result : PResult Node) (s : PState) :
    Option (PResult Node) :=
  if namesList.contains functionName then
    some (result.failure (InvalidSyntaxError s.currentToken.posStart
      s.currentToken.posEnd "Duplicate parameter: function name reused as a parameter"))
  else none

/-- The `func_a` / `func_b` parameters of `bin_op` form a closed set of
grammar levels; this enum stands for the bound methods the source passes. -/
inductive BinOpFn where
  | comp_expr
  | arith_expr
  | term
  | factor
  | call
deriving DecidableEq, Repr

/-- The `ops` argument of `bin_op`: plain token types and
`(type, keyword)` pairs. -/
structure BinOps where
  types : List String := []
  keywordValues : List (String × String) := []
deriving Repr

/-- The membership test of the `bin_op` loop:
`current.type in ops or (current.type, current.value) in ops`. -/
def BinOps.containsTok (ops : BinOps) (t : Token) : Bool :=
  ops.types.contains t.type ||
    (match t.value with
     | some (.str v) => ops.keywordValues.contains (t.type, v)
     | _ => false)

def exprOps : BinOps :=
  { keywordValues := [(TOKEN_TYPE_KEYWORD, "AND"), (TOKEN_TYPE_KEYWORD, "OR")] }

def compOps : BinOps := { types := COMPARISONS_TOKEN }

def arithOps : BinOps := { types := [TOKEN_TYPE_PLUS, TOKEN_TYPE_MINUS] }

def termOps : BinOps :=
  { types := [TOKEN_TYPE_MULTIPLY, TOKEN_TYPE_DIVIDE, TOKEN_TYPE_MODULUS] }

def powerOps : BinOps := { types := [TOKEN_TYPE_POWER] }

/-- Outcome of `parse_params_and_arrow` / `checkfor_parse_arrow`
(the source's `(parsed_arrow, result, param_name_tokens, error)` tuple). -/
inductive ParamsOut where
  | arrow (r : PResult Node)
  | noArrow (r : PResult Node) (params : List Token)
  | errored (r : PResult Node)
deriving Repr

/-- Outcome of the parameter comma loop inside `parse_params_and_arrow`. -/
inductive ParamsLoopOut where
  | ok (r : PResult Node) (params : List Token) (names : List (Option TokenValue))
  | errored (r : PResult Node)
deriving Repr

/-- Outcome of `parse_multiline_else`: the source returns either the tuple
`(else_case, None)`, the tuple `(None, errored-result)`, or — when the
statement list itself errors — the bare `ParseResult` (which the caller
then attempts to unpack as a tuple, an unhandled `TypeError`). -/
inductive MLElseOut where
  | pair (elseCase : ElseCase) (r : PResult (Option ElseCase))
  | pairErr (r : PResult (Option ElseCase))
  | resultOnly (r : PResult (Option ElseCase))
deriving Repr

mutual

/-- `Parser.statements` (1045-1076). -/
def statements : Nat → Bool → Bool → PState → Res (PState × PResult Node)
  | 0, _, _, _ => .timeout
  | f + 1, inF, inL, s => do
    let result : PResult Node := {}
    let posStart := s.currentToken.posStart
    let (s, result, _count) ← skipNewlinesLoop f s result 0
    let (s, sub) ← statement f inF inL s
    let (result, stmt?) := result.register sub
    if result.error.isSome then return (s, result)
    else
      match stmt? with
      | none => .crash "statements: statement produced no node"
      | some stmt => do
        let (s, stmts, result) ←
          parse_any_additional_statements f inF inL true [stmt] result s
        return (s, result.success (ListNode stmts posStart s.currentToken.posEnd))

/-- `Parser.parse_any_additional_statements` (1115-1173), with the
`more_statements` flag as an argument.  A failed `try_register` discards
the attempt's error, rewinds by `to_reverse_count` and ends the list. -/
def parse_any_additional_statements : Nat → Bool → Bool → Bool → List Node →
    PResult Node → PState → Res (PState × List Node × PResult Node)
  | 0, _, _, _, _, _, _ => .timeout
  | f + 1, inF, inL, more, stmts, result, s => do
    let (s, result, count) ← skipNewlinesLoop f s result 0
    let more := if count = 0 then false else more
    if !more then return (s, stmts, result)
    else do
      let (s, sub) ← statement f inF inL s
      let (result, stmt?) := result.tryRegister sub
      match stmt? with
      | none =>
        let s := s.reverse result.toReverseCount
        parse_any_additional_statements f inF inL false stmts result s
      | some st =>
        parse_any_additional_statements f inF inL more (stmts ++ [st]) result s

/-- `Parser.statement` (1078-1113). -/
def statement : Nat → Bool → Bool → PState → Res (PState × PResult Node)
  | 0, _, _, _ => .timeout
  | f + 1, inF, inL, s =>
    let result : PResult Node := {}
    let posStart := s.currentToken.posStart
    if s.currentToken.matches TOKEN_TYPE_KEYWORD "RETURN" then
      parse_return f inF inL result posStart s
    else if s.currentToken.matches TOKEN_TYPE_KEYWORD "CONTINUE" then
      .ok (parse_continue inL result posStart s)
    else if s.currentToken.matches TOKEN_TYPE_KEYWORD "BREAK" then
      .ok (parse_break inL result posStart s)
    else if s.currentToken.matches TOKEN_TYPE_KEYWORD "IMPORT" then
      parse_import f inF inL result posStart s
    else do
      let (s, sub) ← expr f inF inL s
      let (result, e?) := result.register sub
      if result.error.isSome then
        return (s, result.failure (InvalidSyntaxError s.currentToken.posStart
          s.currentToken.posEnd (ERRORS "statement_syntax_error")))
      else
        match e? with
        | some x => return (s, result.success x)
        | none => .crash "statement: expr produced no node"

/-- `Parser.parse_return` (1175-1212): the optional expression is attempted
with `try_register` and rewound when absent. -/
def parse_return : Nat → Bool → Bool → PResult Node → Position → PState →
    Res (PState × PResult Node)
  | 0, _, _, _, _, _ => .timeout
  | f + 1, inF, inL, result, posStart, s =>
    let result := result.registerAdvancement
    let s := s.advance
    if !inF then
      .ok (s, result.failure (InvalidSyntaxError s.currentToken.posStart
        s.currentToken.posEnd (ERRORS "bad_return")))
    else do
      let (s, sub) ← expr f inF inL s
      let (result, e?) := result.tryRegister sub
      match e? with
      | none =>
        let s := s.reverse result.toReverseCount
        return (s, result.success (ReturnNode none posStart s.currentToken.posStart))
      | some e =>
        return (s, result.success (ReturnNode (some e) posStart s.currentToken.posStart))

/-- `Parser.parse_import` (1260-1286). -/
def parse_import : Nat → Bool → Bool → PResult Node → Position → PState →
    Res (PState × PResult Node)
  | 0, _, _, _, _, _ => .timeout
  | f + 1, inF, inL, result, posStart, s =>
    let result := result.registerAdvancement
    let s := s.advance
    if s.currentToken.type ≠ TOKEN_TYPE_STRING then
      .ok (s, result.failure (InvalidSyntaxError s.currentToken.posStart
        s.currentToken.posEnd (ERRORS "string_expected")))
    else do
      let (s, sub) ← atom f inF inL s
      let (result, n?) := result.register sub
      match n? with
      | some strN =>
        return (s, result.success (ImportNode strN posStart s.currentToken.posStart))
      | none => .crash "parse_import: atom produced no node"

/-- `Parser.expr` (1288-1320). -/
def expr : Nat → Bool → Bool → PState → Res (PState × PResult Node)
  | 0, _, _, _ => .timeout
  | f + 1, inF, inL, s =>
    let result : PResult Node := {}
    if s.currentToken.matches TOKEN_TYPE_KEYWORD "VAR" then
      parse_variable_assignment f inF inL result s
    else do
      let (s, sub) ← bin_op f inF inL .comp_expr exprOps .comp_expr s
      let (result, n?) := result.register sub
      if result.error.isSome then
        return (s, result.failure (InvalidSyntaxError s.currentToken.posStart
          s.currentToken.posEnd (ERRORS "expr_syntax_error")))
      else
        match n? with
        | some n => return (s, result.success n)
        | none => .crash "expr: bin_op produced no node"

/-- `Parser.parse_variable_assignment` (1322-1364). -/
def parse_variable_assignment : Nat → Bool → Bool → PResult Node → PState →
    Res (PState × PResult Node)
  | 0, _, _, _, _ => .timeout
  | f + 1, inF, inL, result, s =>
    let result := result.registerAdvancement
    let s := s.advance
    if s.currentToken.type ≠ TOKEN_TYPE_IDENTIFIER then
      .ok (s, result.failure (InvalidSyntaxError s.currentToken.posStart
        s.currentToken.posEnd (ERRORS "identifier_expected")))
    else
      let varName := s.currentToken
      let result := result.registerAdvancement
      let s := s.advance
      if s.currentToken.type ≠ TOKEN_TYPE_ASSIGN then
        .ok (s, result.failure (InvalidSyntaxError s.currentToken.posStart
          s.currentToken.posEnd (ERRORS "equal_expected")))
      else do
        let result := result.registerAdvancement
        let s := s.advance
        let (s, sub) ← expr f inF inL s
        let (result, e?) := result.register sub
        if result.error.isSome then return (s, result)
        else
          match e? with
          | some e => return (s, result.success (VarAssignNode varName e))
          | none => .crash "parse_variable_assignment: expr produced no node"

/-- `Parser.comp_expr` (1366-1404). -/
def comp_expr : Nat → Bool → Bool → PState → Res (PState × PResult Node)
  | 0, _, _, _ => .timeout
  | f + 1, inF, inL, s =>
    let result : PResult Node := {}
    if s.currentToken.matches TOKEN_TYPE_KEYWORD "NOT" then do
      let opTok := s.currentToken
      let result := result.registerAdvancement
      let s := s.advance
      let (s, sub) ← comp_expr f inF inL s
      let (result, n?) := result.register sub
      if result.error.isSome then return (s, result)
      else
        match n? with
        | some n => return (s, result.success (UnaryOpNode opTok n))
        | none => .crash "comp_expr: no node"
    else do
      let (s, sub) ← bin_op f inF inL .arith_expr compOps .arith_expr s
      let (result, n?) := result.register sub
      if result.error.isSome then
        return (s, result.failure (InvalidSyntaxError s.currentToken.posStart
          s.currentToken.posEnd (ERRORS "comp_syntax_error")))
      else
        match n? with
        | some n => return (s, result.success n)
        | none => .crash "comp_expr: bin_op produced no node"

/-- `Parser.arith_expr` (1406-1413). -/
def arith_expr : Nat → Bool → Bool → PState → Res (PState × PResult Node)
  | 0, _, _, _ => .timeout
  | f + 1, inF, inL, s => bin_op f inF inL .term arithOps .term s

/-- `Parser.term` (1415-1422). -/
def term : Nat → Bool → Bool → PState → Res (PState × PResult Node)
  | 0, _, _, _ => .timeout
  | f + 1, inF, inL, s => bin_op f inF inL .factor termOps .factor s

/-- `Parser.factor` (1424-1439). -/
def factor : Nat → Bool → Bool → PState → Res (PState × PResult Node)
  | 0, _, _, _ => .timeout
  | f + 1, inF, inL, s =>
    let result : PResult Node := {}
    let token := s.currentToken
    if token.type = TOKEN_TYPE_PLUS ∨ token.type = TOKEN_TYPE_MINUS then do
      let result := result.registerAdvancement
      let s := s.advance
      let (s, sub) ← factor f inF inL s
      let (result, n?) := result.register sub
      if result.error.isSome then return (s, result)
      else
        match n? with
        | some n => return (s, result.success (UnaryOpNode token n))
        | none => .crash "factor: no node"
    else power f inF inL s

/-- `Parser.power` (1441-1449): right operand parsed by `factor`. -/
def power : Nat → Bool → Bool → PState → Res (PState × PResult Node)
  | 0, _, _, _ => .timeout
  | f + 1, inF, inL, s => bin_op f inF inL .call powerOps .factor s

/-- `Parser.call` (1451-1526). -/
def call : Nat → Bool → Bool → PState → Res (PState × PResult Node)
  | 0, _, _, _ => .timeout
  | f + 1, inF, inL, s => do
    let result : PResult Node := {}
    let (s, sub) ← atom f inF inL s
    let (result, a?) := result.register sub
    if result.error.isSome then return (s, result)
    else
      match a? with
      | none => .crash "call: atom produced no node"
      | some atomN =>
        if s.currentToken.type ≠ TOKEN_TYPE_LPAREN then
          return (s, result.success atomN)
        else
          let result := result.registerAdvancement
          let s := s.advance
          if s.currentToken.type = TOKEN_TYPE_RPAREN then
            let result := result.registerAdvancement
            let s := s.advance
            return (s, result.success (CallNode atomN []))
          else do
            let (s, sub) ← expr f inF inL s
            let (result, arg?) := result.register sub
            if result.error.isSome then
              return (s, result.failure (InvalidSyntaxError s.currentToken.posStart
                s.currentToken.posEnd (ERRORS "arg1_syntax_error")))
            else
              match arg? with
              | none => .crash "call: argument produced no node"
              | some a1 => do
                let (s, result, args) ← callArgsLoop f inF inL result [a1] s
                if result.error.isSome then return (s, result)
                else if s.currentToken.type ≠ TOKEN_TYPE_RPAREN then
                  return (s, result.failure (InvalidSyntaxError s.currentToken.posStart
                    s.currentToken.posEnd (ERRORS "comma_rparen_expected")))
                else
                  let result := result.registerAdvancement
                  let s := s.advance
                  return (s, result.success (CallNode atomN args))

/-- Comma loop of `Parser.call` (1503-1511). -/
def callArgsLoop : Nat → Bool → Bool → PResult Node → List Node → PState →
    Res (PState × PResult Node × List Node)
  | 0, _, _, _, _, _ => .timeout
  | f + 1, inF, inL, result, args, s =>
    if s.currentToken.type = TOKEN_TYPE_COMMA then do
      let result := result.registerAdvancement
      let s := s.advance
      let (s, sub) ← expr f inF inL s
      let (result, a?) := result.register sub
      if result.error.isSome then return (s, result, args)
      else
        match a? with
        | none => .crash "callArgsLoop: no node"
        | some a => callArgsLoop f inF inL result (args ++ [a]) s
    else .ok (s, result, args)

/-- `Parser.atom` (1528-1632). -/
def atom : Nat → Bool → Bool → PState → Res (PState × PResult Node)
  | 0, _, _, _ => .timeout
  | f + 1, inF, inL, s =>
    let result : PResult Node := {}
    let token := s.currentToken
    if token.type = TOKEN_TYPE_INT ∨ token.type = TOKEN_TYPE_FLOAT then
      .ok (s.advance, (result.registerAdvancement).success (NumberNode token))
    else if token.type = TOKEN_TYPE_STRING then
      .ok (s.advance, (result.registerAdvancement).success (StringNode token))
    else if token.type = TOKEN_TYPE_IDENTIFIER then
      .ok (s.advance, (result.registerAdvancement).success (VarAccessNode token))
    else if token.type = TOKEN_TYPE_LPAREN then do
      let result := result.registerAdvancement
      let s := s.advance
      let (s, sub) ← expr f inF inL s
      let (result, e?) := result.register sub
      if result.error.isSome then return (s, result)
      else
        match e? with
        | none => .crash "atom: parenthesised expr produced no node"
        | some e =>
          if s.currentToken.type = TOKEN_TYPE_RPAREN then
            let result := result.registerAdvancement
            let s := s.advance
            return (s, result.success e)
          else
            return (s, result.failure (InvalidSyntaxError s.currentToken.posStart
              s.currentToken.posEnd (ERRORS "rparen_expected")))
    else if token.type = TOKEN_TYPE_LSQUARE then do
      let (s, sub) ← list_expr f inF inL s
      let (result, n?) := result.register sub
      if result.error.isSome then return (s, result)
      else
        match n? with
        | some n => return (s, result.success n)
        | none => .crash "atom: list_expr produced no node"
    else if token.matches TOKEN_TYPE_KEYWORD "IF" then do
      let (s, sub) ← if_expr f inF inL s
      let (result, n?) := result.register sub
      if result.error.isSome then return (s, result)
      else
        match n? with
        | some n => return (s, result.success n)
        | none => .crash "atom: if_expr produced no node"
    else if token.matches TOKEN_TYPE_KEYWORD "FOR" then do
      let (s, sub) ← for_expr f inF true s
      let (result, n?) := result.register sub
      if result.error.isSome then return (s, result)
      else
        match n? with
        | some n => return (s, result.success n)
        | none => .crash "atom: for_expr produced no node"
    else if token.matches TOKEN_TYPE_KEYWORD "WHILE" then do
      let (s, sub) ← while_expr f inF true s
      let (result, n?) := result.register sub
      if result.error.isSome then return (s, result)
      else
        match n? with
        | some n => return (s, result.success n)
        | none => .crash "atom: while_expr produced no node"
    else if token.matches TOKEN_TYPE_KEYWORD "FUN" then do
      let (s, sub) ← func_def f true inL s
      let (result, n?) := result.register sub
      if result.error.isSome then return (s, result)
      else
        match n? with
        | some n => return (s, result.success n)
        | none => .crash "atom: func_def produced no node"
    else
      .ok (s, result.failure (InvalidSyntaxError token.posStart token.posEnd
        (ERRORS "atom_syntax_error")))

/-- `Parser.list_expr` (1634-1711). -/
def list_expr : Nat → Bool → Bool → PState → Res (PState × PResult Node)
  | 0, _, _, _ => .timeout
  | f + 1, inF, inL, s =>
    let result : PResult Node := {}
    let posStart := s.currentToken.posStart
    if s.currentToken.type ≠ TOKEN_TYPE_LSQUARE then
      .ok (s, result.failure (InvalidSyntaxError s.currentToken.posStart
        s.currentToken.posEnd (ERRORS "lbracket_expected")))
    else
      let result := result.registerAdvancement
      let s := s.advance
      if s.currentToken.type = TOKEN_TYPE_RSQUARE then
        let result := result.registerAdvancement
        let s := s.advance
        .ok (s, result.success (ListNode [] posStart s.currentToken.posEnd))
      else do
        let (s, sub) ← expr f inF inL s
        let (result, e?) := result.register sub
        if result.error.isSome then
          return (s, result.failure (InvalidSyntaxError s.currentToken.posStart
            s.currentToken.posEnd (ERRORS "list_element_expected")))
        else
          match e? with
          | none => .crash "list_expr: element produced no node"
          | some e1 => do
            let (s, result, elems) ← listExprLoop f inF inL result [e1] s
            if result.error.isSome then return (s, result)
            else if s.currentToken.type ≠ TOKEN_TYPE_RSQUARE then
              return (s, result.failure (InvalidSyntaxError s.currentToken.posStart
                s.currentToken.posEnd (ERRORS "comma_rbracket_expected")))
            else
              let result := result.registerAdvancement
              let s := s.advance
              return (s, result.success (ListNode elems posStart s.currentToken.posEnd))

/-- Comma loop of `Parser.list_expr` (1682-1690). -/
def listExprLoop : Nat → Bool → Bool → PResult Node → List Node → PState →
    Res (PState × PResult Node × List Node)
  | 0, _, _, _, _, _ => .timeout
  | f + 1, inF, inL, result, elems, s =>
    if s.currentToken.type = TOKEN_TYPE_COMMA then do
      let result := result.registerAdvancement
      let s := s.advance
      let (s, sub) ← expr f inF inL s
      let (result, e?) := result.register sub
      if result.error.isSome then return (s, result, elems)
      else
        match e? with
        | none => .crash "listExprLoop: no node"
        | some e => listExprLoop f inF inL result (elems ++ [e]) s
    else .ok (s, result, elems)

/-- `Parser.if_expr` (1713-1783). -/
def if_expr : Nat → Bool → Bool → PState → Res (PState × PResult Node)
  | 0, _, _, _ => .timeout
  | f + 1, inF, inL, s => do
    let result : PResult Node := {}
    let (s, sub) ← if_expr_cases f "IF" inF inL s
    let (result, all?) := result.register sub
    if result.error.isSome then return (s, result)
    else
      match all? with
      | none => .crash "TypeError: cannot unpack None (if_expr)"
      | some (cases, elseCase) => return (s, result.success (IfNode cases elseCase))

/-- `Parser.if_expr_b` (1785-1794). -/
def if_expr_b : Nat → Bool → Bool → PState → Res (PState × PResult CasesPair)
  | 0, _, _, _ => .timeout
  | f + 1, inF, inL, s => if_expr_cases f "ELIF" inF inL s

/-- `Parser.if_expr_c` (1796-1837).  When the multi-line helper returns a
bare `ParseResult` (statement-list error) the source unpacks it as a
2-tuple, an unhandled `TypeError`. -/
def if_expr_c : Nat → Bool → Bool → PState → Res (PState × PResult (Option ElseCase))
  | 0, _, _, _ => .timeout
  | f + 1, inF, inL, s =>
    let result : PResult (Option ElseCase) := {}
    if s.currentToken.matches TOKEN_TYPE_KEYWORD "ELSE" then
      let result := result.registerAdvancement
      let s := s.advance
      if s.currentToken.type = TOKEN_TYPE_NEWLINE then do
        let (s, out) ← parse_multiline_else f inF inL result s
        match out with
        | .resultOnly _ => .crash "TypeError: cannot unpack ParseResult (if_expr_c)"
        | .pairErr r => return (s, r)
        | .pair ec r => return (s, r.success (some ec))
      else do
        let (s, sub) ← statement f inF inL s
        let (result, e?) := result.register sub
        if result.error.isSome then return (s, result)
        else
          match e? with
          | none => .crash "if_expr_c: statement produced no node"
          | some e => return (s, result.success (some (e, false)))
    else .ok (s, result.success none)

/-- `Parser.if_expr_b_or_c` (1839-1862). -/
def if_expr_b_or_c : Nat → Bool → Bool → PState → Res (PState × PResult CasesPair)
  | 0, _, _, _ => .timeout
  | f + 1, inF, inL, s =>
    let result : PResult CasesPair := {}
    if s.currentToken.matches TOKEN_TYPE_KEYWORD "ELIF" then do
      let (s, sub) ← if_expr_b f inF inL s
      let (result, all?) := result.register sub
      if result.error.isSome then return (s, result)
      else
        match all? with
        | none => .crash "TypeError: cannot unpack None (if_expr_b_or_c)"
        | some (cs, ec) => return (s, result.success (cs, ec))
    else do
      let (s, sub) ← if_expr_c f inF inL s
      let (result, ec?) := result.register sub
      if result.error.isSome then return (s, result)
      else return (s, result.success ([], ec?.join))

/-- `Parser.if_expr_cases` (1864-1936). -/
def if_expr_cases : Nat → String → Bool → Bool → PState →
    Res (PState × PResult CasesPair)
  | 0, _, _, _, _ => .timeout
  | f + 1, caseKeyword, inF, inL, s =>
    let result : PResult CasesPair := {}
    if !(s.currentToken.matches TOKEN_TYPE_KEYWORD caseKeyword) then
      .ok (s, result.failure (InvalidSyntaxError s.currentToken.posStart
        s.currentToken.posEnd ("Expected " ++ caseKeyword)))
    else do
      let result := result.registerAdvancement
      let s := s.advance
      let (s, sub) ← expr f inF inL s
      let (result, cond?) := result.register sub
      if result.error.isSome then return (s, result)
      else
        match cond? with
        | none => .crash "if_expr_cases: condition produced no node"
        | some condition =>
          if !(s.currentToken.matches TOKEN_TYPE_KEYWORD "THEN") then
            return (s, result.failure (InvalidSyntaxError s.currentToken.posStart
              s.currentToken.posEnd (ERRORS "then_expected")))
          else
            let result := result.registerAdvancement
            let s := s.advance
            if s.currentToken.type = TOKEN_TYPE_NEWLINE then do
              let (s, result, out?) ← parse_multiline_then f inF inL condition result s
              match out? with
              | none => return (s, result)
              | some (cases, elseCase) => return (s, result.success (cases, elseCase))
            else do
              let (s, sub2) ← statement f inF inL s
              let (result, e?) := result.register sub2
              if result.error.isSome then return (s, result)
              else
                match e? with
                | none => .crash "if_expr_cases: branch produced no node"
                | some e => do
                  let cases : List IfCase := [(condition, e, false)]
                  let (s, sub3) ← if_expr_b_or_c f inF inL s
                  let (result, all?) := result.register sub3
                  if result.error.isSome then return (s, result)
                  else
                    match all? with
                    | none => .crash "TypeError: cannot unpack None (if_expr_cases)"
                    | some (newCases, elseCase) =>
                      return (s, result.success (cases ++ newCases, elseCase))

/-- `Parser.parse_multiline_else` (1938-1973). -/
def parse_multiline_else : Nat → Bool → Bool → PResult (Option ElseCase) →
    PState → Res (PState × MLElseOut)
  | 0, _, _, _, _ => .timeout
  | f + 1, inF, inL, result, s => do
    let result := result.registerAdvancement
    let s := s.advance
    let (s, sub) ← statements f inF inL s
    let (result, stmts?) := result.register sub
    if result.error.isSome then return (s, .resultOnly result)
    else
      match stmts? with
      | none => .crash "parse_multiline_else: statements produced no node"
      | some stmts =>
        let elseCase : ElseCase := (stmts, true)
        if s.currentToken.matches TOKEN_TYPE_KEYWORD "END" then
          let result := result.registerAdvancement
          let s := s.advance
          return (s, .pair elseCase result)
        else
          return (s, .pairErr (result.failure (InvalidSyntaxError
            s.currentToken.posStart s.currentToken.posEnd (ERRORS "end_expected"))))

/-- `Parser.parse_multiline_then` (1975-2015): `none` in the third position
means the errored `ParseResult` is the caller's return value. -/
def parse_multiline_then : Nat → Bool → Bool → Node → PResult CasesPair →
    PState → Res (PState × PResult CasesPair × Option CasesPair)
  | 0, _, _, _, _, _ => .timeout
  | f + 1, inF, inL, condition, result, s => do
    let result := result.registerAdvancement
    let s := s.advance
    let (s, sub) ← statements f inF inL s
    let (result, stmts?) := result.register sub
    if result.error.isSome then return (s, result, none)
    else
      match stmts? with
      | none => .crash "parse_multiline_then: statements produced no node"
      | some stmts =>
        let cases : List IfCase := [(condition, stmts, true)]
        if s.currentToken.matches TOKEN_TYPE_KEYWORD "END" then
          let result := result.registerAdvancement
          let s := s.advance
          return (s, result, some (cases, none))
        else do
          let (s, sub2) ← if_expr_b_or_c f inF inL s
          let (result, all?) := result.register sub2
          if result.error.isSome then return (s, result, none)
          else
            match all? with
            | none => .crash "TypeError: cannot unpack None (parse_multiline_then)"
            | some (newCases, elseCase) =>
              return (s, result, some (cases ++ newCases, elseCase))

/-- `Parser.for_expr` (2017-2174). -/
def for_expr : Nat → Bool → Bool → PState → Res (PState × PResult Node)
  | 0, _, _, _ => .timeout
  | f + 1, inF, inL, s =>
    let result : PResult Node := {}
    if !(s.currentToken.matches TOKEN_TYPE_KEYWORD "FOR") then
      .ok (s, result.failure (InvalidSyntaxError s.currentToken.posStart
        s.currentToken.posEnd (ERRORS "for_expected")))
    else
      let result := result.registerAdvancement
      let s := s.advance
      if s.currentToken.type ≠ TOKEN_TYPE_IDENTIFIER then
        .ok (s, result.failure (InvalidSyntaxError s.currentToken.posStart
          s.currentToken.posEnd (ERRORS "identifier_expected")))
      else
        let varName := s.currentToken
        let result := result.registerAdvancement
        let s := s.advance
        if s.currentToken.type ≠ TOKEN_TYPE_ASSIGN then
          .ok (s, result.failure (InvalidSyntaxError s.currentToken.posStart
            s.currentToken.posEnd (ERRORS "equal_expected")))
        else do
          let result := result.registerAdvancement
          let s := s.advance
          let (s, sub) ← expr f inF inL s
          let (result, start?) := result.register sub
          if result.error.isSome then return (s, result)
          else
            match start? with
            | none => .crash "for_expr: start produced no node"
            | some startValue =>
              if !(s.currentToken.matches TOKEN_TYPE_KEYWORD "TO") then
                return (s, result.failure (InvalidSyntaxError s.currentToken.posStart
                  s.currentToken.posEnd (ERRORS "to_expected")))
              else do
                let result := result.registerAdvancement
                let s := s.advance
                let (s, sub2) ← expr f inF inL s
                let (result, endv?) := result.register sub2
                if result.error.isSome then return (s, result)
                else
                  match endv? with
                  | none => .crash "for_expr: end produced no node"
                  | some endValue => do
                    let (s, result, stepValue?, bad) ←
                      if s.currentToken.matches TOKEN_TYPE_KEYWORD "STEP" then do
                        let result := result.registerAdvancement
                        let s := s.advance
                        let (s, sub3) ← expr f inF inL s
                        let (result, step?) := result.register sub3
                        if result.error.isSome then
                          pure (s, result, (none : Option Node), true)
                        else
                          match step? with
                          | none => Res.crash "for_expr: step produced no node"
                          | some sv => pure (s, result, some sv, false)
                      else pure (s, result, none, false)
                    if bad then return (s, result)
                    else if !(s.currentToken.matches TOKEN_TYPE_KEYWORD "THEN") then
                      return (s, result.failure (InvalidSyntaxError
                        s.currentToken.posStart s.currentToken.posEnd
                        (ERRORS "then_expected")))
                    else
                      let result := result.registerAdvancement
                      let s := s.advance
                      if s.currentToken.type ≠ TOKEN_TYPE_NEWLINE then do
                        let (s, sub4) ← statement f inF inL s
                        let (result, body?) := result.register sub4
                        if result.error.isSome then return (s, result)
                        else
                          match body? with
                          | none => .crash "for_expr: body produced no node"
                          | some body =>
                            return (s, result.success
                              (ForNode varName startValue endValue stepValue? body false))
                      else do
                        let result := result.registerAdvancement
                        let s := s.advance
                        let (s, sub5) ← statements f inF inL s
                        let (result, body?) := result.register sub5
                        if result.error.isSome then return (s, result)
                        else
                          match body? with
                          | none => .crash "for_expr: body produced no node"
                          | some body =>
                            if !(s.currentToken.matches TOKEN_TYPE_KEYWORD "END") then
                              return (s, result.failure (InvalidSyntaxError
                                s.currentToken.posStart s.currentToken.posEnd
                                (ERRORS "end_expected")))
                            else
                              let result := result.registerAdvancement
                              let s := s.advance
                              return (s, result.success
                                (ForNode varName startValue endValue stepValue? body true))

/-- `Parser.while_expr` (2176-2260). -/
def while_expr : Nat → Bool → Bool → PState → Res (PState × PResult Node)
  | 0, _, _, _ => .timeout
  | f + 1, inF, inL, s =>
    let result : PResult Node := {}
    if !(s.currentToken.matches TOKEN_TYPE_KEYWORD "WHILE") then
      .ok (s, result.failure (InvalidSyntaxError s.currentToken.posStart
        s.currentToken.posEnd (ERRORS "while_expected")))
    else do
      let result := result.registerAdvancement
      let s := s.advance
      let (s, sub) ← expr f inF inL s
      let (result, cond?) := result.register sub
      if result.error.isSome then return (s, result)
      else
        match cond? with
        | none => .crash "while_expr: condition produced no node"
        | some condition =>
          if !(s.currentToken.matches TOKEN_TYPE_KEYWORD "THEN") then
            return (s, result.failure (InvalidSyntaxError s.currentToken.posStart
              s.currentToken.posEnd (ERRORS "then_expected")))
          else
            let result := result.registerAdvancement
            let s := s.advance
            if s.currentToken.type ≠ TOKEN_TYPE_NEWLINE then do
              let (s, sub2) ← statement f inF inL s
              let (result, body?) := result.register sub2
              if result.error.isSome then return (s, result)
              else
                match body? with
                | none => .crash "while_expr: body produced no node"
                | some body =>
                  return (s, result.success (WhileNode condition body false))
            else do
              let result := result.registerAdvancement
              let s := s.advance
              let (s, sub3) ← statements f inF inL s
              let (result, body?) := result.register sub3
              if result.error.isSome then return (s, result)
              else
                match body? with
                | none => .crash "while_expr: body produced no node"
                | some body =>
                  if !(s.currentToken.matches TOKEN_TYPE_KEYWORD "END") then
                    return (s, result.failure (InvalidSyntaxError
                      s.currentToken.posStart s.currentToken.posEnd
                      (ERRORS "end_expected")))
                  else
                    let result := result.registerAdvancement
                    let s := s.advance
                    return (s, result.success (WhileNode condition body true))

/-- `Parser.func_def` (2262-2416). -/
def func_def : Nat → Bool → Bool → PState → Res (PState × PResult Node)
  | 0, _, _, _ => .timeout
  | f + 1, _inF, _inL, s =>
    let result : PResult Node := {}
    if !(s.currentToken.matches TOKEN_TYPE_KEYWORD "FUN") then
      .ok (s, result.failure (InvalidSyntaxError s.currentToken.posStart
        s.currentToken.posEnd (ERRORS "fun_expected")))
    else
      let result := result.registerAdvancement
      let s := s.advance
      let step :=
        if s.currentToken.type = TOKEN_TYPE_IDENTIFIER then
          let varNameToken := some s.currentToken
          let result := result.registerAdvancement
          let s := s.advance
          if s.currentToken.type ≠ TOKEN_TYPE_LPAREN then
            Sum.inl (s, result.failure (InvalidSyntaxError s.currentToken.posStart
              s.currentToken.posEnd (ERRORS "lparen_expected")))
          else Sum.inr (s, result, varNameToken)
        else
          if s.currentToken.type ≠ TOKEN_TYPE_LPAREN then
            Sum.inl (s, result.failure (InvalidSyntaxError s.currentToken.posStart
              s.currentToken.posEnd (ERRORS "identifier_lparen_expected")))
          else Sum.inr (s, result, none)
      match step with
      | Sum.inl out => .ok out
      | Sum.inr (s, result, varNameToken) =>
        let result := result.registerAdvancement
        let s := s.advance
        if s.currentToken.type = TOKEN_TYPE_IDENTIFIER ∨
            s.currentToken.type = TOKEN_TYPE_RPAREN then do
          let (s, out) ← parse_params_and_arrow f result varNameToken [] s
          match out with
          | .errored r => return (s, r)
          | .arrow r => return (s, r)
          | .noArrow result params =>
            if s.currentToken.type ≠ TOKEN_TYPE_NEWLINE then
              return (s, result.failure (InvalidSyntaxError s.currentToken.posStart
                s.currentToken.posEnd (ERRORS "arrow_NL_expected")))
            else do
              let result := result.registerAdvancement
              let s := s.advance
              let (s, sub) ← statements f true false s
              let (result, body?) := result.register sub
              if result.error.isSome then return (s, result)
              else
                match body? with
                | none => .crash "func_def: body produced no node"
                | some body =>
                  if !(s.currentToken.matches TOKEN_TYPE_KEYWORD "END") then
                    return (s, result.failure (InvalidSyntaxError
                      s.currentToken.posStart s.currentToken.posEnd
                      (ERRORS "end_expected")))
                  else
                    let result := result.registerAdvancement
                    let s := s.advance
                    return (s, result.success (FuncDefNode varNameToken params body false))
        else
          .ok (s, result.failure (InvalidSyntaxError s.currentToken.posStart
            s.currentToken.posEnd (ERRORS "identifier_rparen_expected")))

/-- `Parser.parse_params_and_arrow` (2418-2515).  For an anonymous function
with at least one declared parameter, `var_name_token` is `None` and the
source reads `var_name_token.value` — an unhandled `AttributeError`. -/
def parse_params_and_arrow : Nat → PResult Node → Option Token → List Token →
    PState → Res (PState × ParamsOut)
  | 0, _, _, _, _ => .timeout
  | f + 1, result, varNameToken, paramNameTokens, s =>
    if s.currentToken.type = TOKEN_TYPE_RPAREN then
      checkfor_parse_arrow f result varNameToken paramNameTokens s
    else
      match varNameToken with
      | none => .crash "AttributeError: NoneType object has no attribute value"
      | some vt =>
        let functionName := vt.value
        let paramNameTokens := paramNameTokens ++ [s.currentToken]
        let namesList := [s.currentToken.value]
        match duplicate_function_name functionName namesList result s with
        | some r => .ok (s, .errored r)
        | none => do
          let result := result.registerAdvancement
          let s := s.advance
          let (s, out) ← paramsLoop f result paramNameTokens namesList functionName s
          match out with
          | .errored r => return (s, .errored r)
          | .ok result params _names =>
            if s.currentToken.type ≠ TOKEN_TYPE_RPAREN then
              return (s, .errored (result.failure (InvalidSyntaxError
                s.currentToken.posStart s.currentToken.posEnd
                (ERRORS "comma_rparen_expected"))))
            else checkfor_parse_arrow f result varNameToken params s

/-- Comma loop of `parse_params_and_arrow` (2463-2501). -/
def paramsLoop : Nat → PResult Node → List Token → List (Option TokenValue) →
    Option TokenValue → PState → Res (PState × ParamsLoopOut)
  | 0, _, _, _, _, _ => .timeout
  | f + 1, result, params, names, functionName, s =>
    if s.currentToken.type = TOKEN_TYPE_COMMA then
      let result := result.registerAdvancement
      let s := s.advance
      if s.currentToken.type ≠ TOKEN_TYPE_IDENTIFIER then
        .ok (s, .errored (result.failure (InvalidSyntaxError
          s.currentToken.posStart s.currentToken.posEnd
          (ERRORS "identifier_expected"))))
      else if names.contains s.currentToken.value then
        .ok (s, .errored (result.failure (InvalidSyntaxError
          s.currentToken.posStart s.currentToken.posEnd
          "Duplicate parameter in function definition")))
      else
        let params := params ++ [s.currentToken]
        let names := names ++ [s.currentToken.value]
        match duplicate_function_name functionName names result s with
        | some r => .ok (s, .errored r)
        | none =>
          let result := result.registerAdvancement
          let s := s.advance
          paramsLoop f result params names functionName s
    else .ok (s, .ok result params names)

/-- `Parser.checkfor_parse_arrow` (2517-2568). -/
def checkfor_parse_arrow : Nat → PResult Node → Option Token → List Token →
    PState → Res (PState × ParamsOut)
  | 0, _, _, _, _ => .timeout
  | f + 1, result, varNameToken, params, s =>
    let result := result.registerAdvancement
    let s := s.advance
    if s.currentToken.type ≠ TOKEN_TYPE_ARROW then
      .ok (s, .noArrow result params)
    else do
      let result := result.registerAdvancement
      let s := s.advance
      let (s, sub) ← expr f true false s
      let (result, body?) := result.register sub
      if result.error.isSome then return (s, .errored result)
      else
        match body? with
        | none => .crash "checkfor_parse_arrow: body produced no node"
        | some body =>
          return (s, .arrow (result.success (FuncDefNode varNameToken params body true)))

/-- `Parser.bin_op` (2595-2623). -/
def bin_op : Nat → Bool → Bool → BinOpFn → BinOps → BinOpFn → PState →
    Res (PState × PResult Node)
  | 0, _, _, _, _, _, _ => .timeout
  | f + 1, inF, inL, fa, ops, fb, s => do
    let result : PResult Node := {}
    let (s, sub) ← callBinFn f fa inF inL s
    let (result, left?) := result.register sub
    if result.error.isSome then return (s, result)
    else
      match left? with
      | none => .crash "bin_op: left operand produced no node"
      | some left => binOpLoop f inF inL fb ops result left s

/-- The operator loop of `bin_op` (2611-2622). -/
def binOpLoop : Nat → Bool → Bool → BinOpFn → BinOps → PResult Node → Node →
    PState → Res (PState × PResult Node)
  | 0, _, _, _, _, _, _, _ => .timeout
  | f + 1, inF, inL, fb, ops, result, left, s =>
    if ops.containsTok s.currentToken then do
      let opTok := s.currentToken
      let result := result.registerAdvancement
      let s := s.advance
      let (s, sub) ← callBinFn f fb inF inL s
      let (result, right?) := result.register sub
      if result.error.isSome then return (s, result)
      else
        match right? with
        | none => .crash "bin_op: right operand produced no node"
        | some right => binOpLoop f inF inL fb ops result (BinOpNode left opTok right) s
    else .ok (s, result.success left)

/-- Dispatch of the `func_a` / `func_b` bound-method arguments of `bin_op`. -/
def callBinFn : Nat → BinOpFn → Bool → Bool → PState → Res (PState × PResult Node)
  | 0, _, _, _, _ => .timeout
  | f + 1, fn, inF, inL, s =>
    match fn with
    | .comp_expr => comp_expr f inF inL s
    | .arith_expr => arith_expr f inF inL s
    | .term => term f inF inL s
    | .factor => factor f inF inL s
    | .call => call f inF inL s

end

/-- `Parser.parse` (1020-1041): parse a statement list, then require that
every token was consumed (else the generic out-of-place error). -/
def Parser.parse (fuel : Nat) (s : PState) : Res (PState × PResult Node) := do
  let (s, result) ← statements fuel false false s
  if result.error.isNone ∧ s.currentToken.type ≠ TOKEN_TYPE_EOF then
    return (s, result.failure (InvalidSyntaxError s.currentToken.posStart
      s.currentToken.posEnd (ERRORS "tokens_out_of_place")))
  else return (s, result)

/-! ## Contexts, symbol tables and the store (`basic.py` 3531-3571)

Python shares `SymbolTable` objects and the backing `list` of `List` values
by reference; both live in an explicit `Store` and are addressed by index.
`Context` objects are never mutated after creation, so they are plain
values holding a table reference. -/

/-- `Context`: display name, parent frame, call-site position, and the
reference of its `SymbolTable` (`None` until assigned). -/
inductive Context where
  | mk (displayName : String) (parent : Option Context)
      (parentEntryPos : Option Position) (symbolTable : Option Nat)
deriving Repr

def Context.displayName : Context → String
  | .mk d _ _ _ => d

def Context.parent : Context → Option Context
  | .mk _ p _ _ => p

def Context.parentEntryPos : Context → Option Position
  | .mk _ _ pe _ => pe

def Context.symbolTable : Context → Option Nat
  | .mk _ _ _ t => t

/-! ## Values (`basic.py` 2691-3524) -/

/-- The runtime value variants.  A `list` holds the reference of its shared
backing element sequence; a `func` holds the body AST, parameter names and
auto-return flag (`Function`); `builtin` is a `BuiltInFunction` name. -/
inductive ValueCore where
  | number (value : PyFloat)
  | str (value : String)
  | list (elementsRef : Nat)
  | func (name : String) (bodyNode : Node) (argNames : List String)
      (shouldAutoReturn : Bool)
  | builtin (name : String)
deriving Repr

/-- A `Value`: the variant payload plus the `pos_start` / `pos_end` /
`context` attributes every `Value` instance carries. -/
structure Value where
  core : ValueCore
  posStart : Option Position := none
  posEnd : Option Position := none
  context : Option Context := none
deriving Repr

/-- `Value.set_pos`. -/
def Value.set_pos (v : Value) (ps pe : Option Position) : Value :=
  { v with posStart := ps, posEnd := pe }

/-- `Value.set_context`, with the `BaseFunction.set_context` override: once
a function or built-in function holds a (truthy, i.e. non-`None`) context,
later calls leave it unchanged. -/
def Value.set_context (v : Value) (ctx : Option Context) : Value :=
  match v.core with
  | .func _ _ _ _ => if v.context.isSome then v else { v with context := ctx }
  | .builtin _ => if v.context.isSome then v else { v with context := ctx }
  | _ => { v with context := ctx }

/-- The per-class `copy` methods: each builds a fresh wrapper around the
same payload — for `List` the same `elementsRef` — then re-stamps the
original position and context. -/
def Value.copy (v : Value) : Value :=
  ((Value.mk v.core none none none).set_pos v.posStart v.posEnd).set_context v.context

def mkNumber (n : PyFloat) : Value := ⟨.number n, none, none, none⟩

def mkString (s : String) : Value := ⟨.str s, none, none, none⟩

def mkList (r : Nat) : Value := ⟨.list r, none, none, none⟩

/-- `Number.none` / `Number.false` (both the integer 0). -/
def Number.noneValue : Value := mkNumber (.finite ⟨0, 1⟩)

def Number.falseValue : Value := mkNumber (.finite ⟨0, 1⟩)

/-- `Number.true` (the integer 1). -/
def Number.trueValue : Value := mkNumber (.finite ⟨1, 1⟩)

/-- `Number.math_PI`: the exact value of the IEEE double `math.pi`. -/
def Number.mathPI : Value := mkNumber (.finite ⟨884279719003555, 281474976710656⟩)

/-- `Value.is_true`: `Number` is true iff non-zero, `String` iff non-empty;
the base class (hence `List` and functions) returns `False`. -/
def Value.is_true (v : Value) : Bool :=
  match v.core with
  | .number n => !n.isZero
  | .str s => s.length > 0
  | _ => false

/-- A runtime error (`RTError`): span, message and the active context chain. -/
structure RTErr where
  posStart : Option Position
  posEnd : Option Position
  details : String
  context : Option Context
deriving Repr

/-- `Value.illegal_operation`: `other` defaults to `self`. -/
def Value.illegal_operation (self : Value) (other : Option Value) : RTErr :=
  let o := match other with
    | some o => o
    | none => self
  ⟨self.posStart, o.posEnd, "Illegal operation", self.context⟩

/-- The symbol table record: insertion-ordered name/value entries and an
optional parent reference. -/
structure STable where
  symbols : List (String × Value) := []
  parent : Option Nat := none
deriving Repr

/-- The reference store: symbol tables and list element sequences are
addressed by index; `output` collects what `PRINT` writes. -/
structure Store where
  tables : List STable := []
  lists : List (List Value) := []
  output : List String := []
deriving Repr

def Store.allocTable (st : Store) (t : STable) : Nat × Store :=
  (st.tables.length, { st with tables := st.tables ++ [t] })

def Store.allocList (st : Store) (elems : List Value) : Nat × Store :=
  (st.lists.length, { st with lists := st.lists ++ [elems] })

def Store.getList (st : Store) (r : Nat) : List Value :=
  (st.lists.get? r).getD []

def Store.setList (st : Store) (r : Nat) (elems : List Value) : Store :=
  { st with lists := st.lists.set r elems }

/-- Dictionary-style update: replace in place or append. -/
def setAssoc : List (String × Value) → String → Value → List (String × Value)
  | [], n, v => [(n, v)]
  | (k, w) :: rest, n, v =>
    if k = n then (n, v) :: rest else (k, w) :: setAssoc rest n v

/-- `SymbolTable.get` walking the parent chain (the chain is acyclic since
parents are always older tables; the fuel bound `tables.length + 1` covers
every chain). -/
def symbolTableGetAux (st : Store) : Nat → Nat → String → Option Value
  | 0, _, _ => none
  | f + 1, r, name =>
    match st.tables.get? r with
    | none => none
    | some t =>
      match t.symbols.lookup name with
      | some v => some v
      | none =>
        match t.parent with
        | some p => symbolTableGetAux st f p name
        | none => none

def SymbolTable.get (st : Store) (r : Nat) (name : String) : Option Value :=
  symbolTableGetAux st (st.tables.length + 1) r name

def SymbolTable.set (st : Store) (r : Nat) (name : String) (v : Value) : Store :=
  match st.tables.get? r with
  | none => st
  | some t =>
    { st with tables := st.tables.set r { t with symbols := setAssoc t.symbols name v } }

/-! ## Value operator methods (`basic.py` 2707-3078)

Each binary operator returns the source's `(value, error)` tuple, plus the
(possibly mutated) store for the `List` operators; `crash` marks unhandled
host exceptions (e.g. a non-integer list index raising `TypeError`, which
the `except IndexError` clauses do not catch). -/

inductive OpResult where
  | ok (v : Value) (st : Store)
  | err (e : RTErr) (st : Store)
  | crash (msg : String)
deriving Repr

/-- Python list index semantics for the indices used by `pop` and `/`:
integer, negative counts from the end; `none` is `IndexError`. -/
def pyListIndex (len : Nat) (i : Int) : Option Nat :=
  let real := if i < 0 then (len : Int) + i else i
  if 0 ≤ real ∧ real < (len : Int) then some real.toNat else none

/-- `Number.added_to` / `String.added_to` / `List.added_to` and the base
default.  `List` `+` builds a new wrapper through `copy()` — sharing the
same `elementsRef` — and appends in place through it, so the appended
element is visible through every alias. -/
def Value.added_to (st : Store) (self other : Value) : OpResult :=
  match self.core with
  | .number a =>
    match other.core with
    | .number b => .ok ((mkNumber (a.add b)).set_context self.context) st
    | _ => .err (self.illegal_operation (some other)) st
  | .str a =>
    match other.core with
    | .str b => .ok ((mkString (a ++ b)).set_context self.context) st
    | _ => .err (self.illegal_operation (some other)) st
  | .list r =>
    let newList := self.copy
    let st := st.setList r (st.getList r ++ [other])
    .ok newList st
  | _ => .err (self.illegal_operation (some other)) st

/-- `Number.subtracted_by` / `List.subtracted_by` (pop through a copy
sharing the backing sequence) and the base default. -/
def Value.subtracted_by (st : Store) (self other : Value) : OpResult :=
  match self.core with
  | .number a =>
    match other.core with
    | .number b => .ok ((mkNumber (a.sub b)).set_context self.context) st
    | _ => .err (self.illegal_operation (some other)) st
  | .list r =>
    match other.core with
    | .number (.finite q) =>
      if q.isInt then
        let newList := self.copy
        let elems := st.getList r
        match pyListIndex elems.length q.num with
        | some i => .ok newList (st.setList r (elems.eraseIdx i))
        | none =>
          .err ⟨other.posStart, other.posEnd, ERRORS "list_index_error", self.context⟩ st
      else .crash "TypeError: list pop index must be an integer"
    | .number .inf => .crash "OverflowError: list pop index is infinite"
    | _ => .err (self.illegal_operation (some other)) st
  | _ => .err (self.illegal_operation (some other)) st

/-- `Number.multiplied_by` / `List.multiplied_by` and the base default.
`String` defines only the misspelled `multplied_by` (2990-2998), so the
dynamic dispatch on `multiplied_by` reaches the base class: String `*`
Number is an illegal-operation error, and the repeat method is dead code. -/
def Value.multiplied_by (st : Store) (self other : Value) : OpResult :=
  match self.core with
  | .number a =>
    match other.core with
    | .number b => .ok ((mkNumber (a.mul b)).set_context self.context) st
    | _ => .err (self.illegal_operation (some other)) st
  | .list r =>
    match other.core with
    | .list r2 =>
      let newList := self.copy
      let st := st.setList r (st.getList r ++ st.getList r2)
      .ok newList st
    | _ => .err (self.illegal_operation (some other)) st
  | _ => .err (self.illegal_operation (some other)) st

/-- `String.multplied_by` (sic, 2990-2998): the misspelled repeat method
the source intends for String `*` Number.  It is never reached by the
interpreter (which dispatches on `multiplied_by`); translated here to
witness the intended behaviour.  Python string repetition requires an
integer count (negative yields the empty string). -/
def String_multplied_by (self other : Value) : Option Value :=
  match self.core, other.core with
  | .str a, .number (.finite q) =>
    if q.isInt then
      some ((mkString (String.join (List.replicate q.num.toNat a))).set_context self.context)
    else none
  | .str _, _ => none
  | _, _ => none

/-- `Number.divided_by` / `List.divided_by` (element fetch) and the base
default. -/
def Value.divided_by (st : Store) (self other : Value) : OpResult :=
  match self.core with
  | .number a =>
    match other.core with
    | .number b =>
      if b.isZero then
        .err ⟨other.posStart, other.posEnd, ERRORS "division_by_zero", self.context⟩ st
      else .ok ((mkNumber (a.div b)).set_context self.context) st
    | _ => .err (self.illegal_operation (some other)) st
  | .list r =>
    match other.core with
    | .number (.finite q) =>
      if q.isInt then
        let elems := st.getList r
        match pyListIndex elems.length q.num with
        | some i => .ok ((elems.get? i).getD Number.noneValue) st
        | none =>
          .err ⟨other.posStart, other.posEnd, ERRORS "fetch_index_error", self.context⟩ st
      else .crash "TypeError: list index must be an integer"
    | .number .inf => .crash "OverflowError: list index is infinite"
    | _ => .err (self.illegal_operation (some other)) st
  | _ => .err (self.illegal_operation (some other)) st

/-- `Number.modulused_by` and the base default. -/
def Value.modulused_by (st : Store) (self other : Value) : OpResult :=
  match self.core with
  | .number a =>
    match other.core with
    | .number b =>
      if b.isZero then
        .err ⟨other.posStart, other.posEnd, ERRORS "modulus_by_zero", self.context⟩ st
      else
        match a, b with
        | .finite qa, .finite qb =>
          .ok ((mkNumber (.finite (qa.pymod qb))).set_context self.context) st
        | _, _ => .crash "float modulus with infinity not modelled"
    | _ => .err (self.illegal_operation (some other)) st
  | _ => .err (self.illegal_operation (some other)) st

def intPow (b : Int) (n : Nat) : Int :=
  (if b < 0 ∧ n % 2 = 1 then (-1 : Int) else 1) * ((Nat.pow b.natAbs n : Nat) : Int)

def MRat.npow (a : MRat) (n : Nat) : MRat := ⟨intPow a.num n, Nat.pow a.den n⟩

def MRat.inv (a : MRat) : MRat :=
  if a.num > 0 then ⟨(a.den : Int), a.num.toNat⟩
  else if a.num < 0 then ⟨-(a.den : Int), a.num.natAbs⟩
  else ⟨0, 1⟩

/-- `Number.powered_by` and the base default.  Integer exponents are exact;
`0 ** negative` raises `ZeroDivisionError`; non-integer exponents go
through host float `pow`, which is outside the model (no claim touches
it). -/
def Value.powered_by (st : Store) (self other : Value) : OpResult :=
  match self.core with
  | .number a =>
    match other.core with
    | .number b =>
      match a, b with
      | .finite qa, .finite qb =>
        if qb.isInt then
          if 0 ≤ qb.num then
            .ok ((mkNumber (.finite (qa.npow qb.num.toNat))).set_context self.context) st
          else if qa.num = 0 then
            .crash "ZeroDivisionError: zero to a negative power"
          else
            .ok ((mkNumber (.finite ((qa.npow qb.num.natAbs).inv))).set_context self.context) st
        else .crash "host float power not modelled"
      | _, _ => .crash "host float power not modelled"
    | _ => .err (self.illegal_operation (some other)) st
  | _ => .err (self.illegal_operation (some other)) st

/-- The six `Number.get_comparison_*` methods and the base defaults,
parameterised by the comparison. -/
def Value.get_comparison (cmp : PyFloat → PyFloat → Bool) (st : Store)
    (self other : Value) : OpResult :=
  match self.core with
  | .number a =>
    match other.core with
    | .number b =>
      .ok ((mkNumber (.finite (if cmp a b then ⟨1, 1⟩ else ⟨0, 1⟩))).set_context self.context) st
    | _ => .err (self.illegal_operation (some other)) st
  | _ => .err (self.illegal_operation (some other)) st

/-- Python `int(x)` applied to the value picked by `and` / `or`
(truncation; infinite values raise `OverflowError`). -/
def pyIntOfFloat : PyFloat → Option Int
  | .finite q => some q.trunc
  | .inf => none

/-- `Number.anded_by`: `int(self.value and other.value)`. -/
def Value.anded_by (st : Store) (self other : Value) : OpResult :=
  match self.core with
  | .number a =>
    match other.core with
    | .number b =>
      let picked := if a.isZero then a else b
      match pyIntOfFloat picked with
      | some i => .ok ((mkNumber (.finite (MRat.ofInt i))).set_context self.context) st
      | none => .crash "OverflowError: cannot convert float infinity to integer"
    | _ => .err (self.illegal_operation (some other)) st
  | _ => .err (self.illegal_operation (some other)) st

/-- `Number.ored_by`: `int(self.value or other.value)`. -/
def Value.ored_by (st : Store) (self other : Value) : OpResult :=
  match self.core with
  | .number a =>
    match other.core with
    | .number b =>
      let picked := if a.isZero then b else a
      match pyIntOfFloat picked with
      | some i => .ok ((mkNumber (.finite (MRat.ofInt i))).set_context self.context) st
      | none => .crash "OverflowError: cannot convert float infinity to integer"
    | _ => .err (self.illegal_operation (some other)) st
  | _ => .err (self.illegal_operation (some other)) st

/-- `Number.notted` and the base default. -/
def Value.notted (st : Store) (self : Value) : OpResult :=
  match self.core with
  | .number a =>
    .ok ((mkNumber (.finite (if a.isZero then ⟨1, 1⟩ else ⟨0, 1⟩))).set_context self.context) st
  | _ => .err (self.illegal_operation none) st

/-! ## Interpreter (`basic.py` 3579-4084) -/

/-- An `RTResult` snapshot as returned by a `visit`: the value, or exactly
one of the error / return / break / continue signals; `crash` and `timeout`
are the host-exception and fuel-exhaustion outcomes of the model. -/
inductive Outcome where
  | success (v : Value)
  | error (e : RTErr)
  | funcReturn (v : Value)
  | brk
  | cont
  | crash (msg : String)
  | timeout
deriving Repr

/-- Outcome of evaluating a node list (list literal elements, call
arguments): all values, or the first halting outcome. -/
inductive ElemsOut where
  | vals (vs : List Value)
  | halt (o : Outcome)
deriving Repr

/-- Outcome of a loop body iteration sweep: the collected per-iteration
values (a `break` ends collection without propagating), or a halting
outcome (error / return / crash / timeout) to forward. -/
inductive LoopOut where
  | done (elems : List Value)
  | halt (o : Outcome)
deriving Repr

/-- Outcome of `run`: `(None, lex-or-parse-error)`, the raw result carrier
(`return_result=True`), or the unwrapped `(value, error)` pair. -/
inductive RunOut where
  | lexParseErr (e : PError)
  | fullResult (o : Outcome)
  | plain (value : Option Value) (error : Option RTErr)
  | crash (msg : String)
  | timeout
deriving Repr

/-- The file system boundary consumed by `IMPORT` and the deprecated `RUN`
built-in: file name to contents. -/
abbrev FS := String → Option String

/-- The string value of an identifier or keyword token. -/
def tokStr (t : Token) : String :=
  match t.value with
  | some (.str s) => s
  | _ => ""

/-- `BaseFunction.populate_params`: bind each parameter positionally,
re-stamping the argument's context (a no-op for function values with a
context already set). -/
def populateParams (argNames : List String) (args : List Value) (execCtx : Context)
    (st : Store) : Store :=
  match execCtx.symbolTable with
  | none => st
  | some r =>
    (argNames.zip args).foldl
      (fun st p => SymbolTable.set st r p.1 (p.2.set_context (some execCtx)))
      st

/-- `BaseFunction.generate_new_context`: a fresh context named after the
function, whose table is a new child of the *defining* context's table
(`self.context`); crashes when the function has no context (the source
would raise `AttributeError` on `new_context.parent.symbol_table`). -/
def generate_new_context (v : Value) (name : String) (st : Store) :
    Option (Context × Store) :=
  match v.context with
  | none => none
  | some defCtx =>
    let (tref, st) := st.allocTable { symbols := [], parent := defCtx.symbolTable }
    some (Context.mk name (some defCtx) v.posStart (some tref), st)

/-- The `arg_names` attribute of each `execute_<name>` built-in method
(`basic.py` 3282-3508). -/
def builtinArgNames : String → Option (List String)
  | "print" => some ["value"]
  | "print_ret" => some ["value"]
  | "input" => some []
  | "input_int" => some []
  | "clear" => some []
  | "is_number" => some ["value"]
  | "is_string" => some ["value"]
  | "is_list" => some ["value"]
  | "is_function" => some ["value"]
  | "append" => some ["list", "value"]
  | "pop" => some ["list", "index"]
  | "extend" => some ["listA", "listB"]
  | "len" => some ["list"]
  | "run" => some ["filename"]
  | _ => none

/-- `str(value)` as used by `PRINT` / `PRINT_RET`: numbers and strings
display their payload (float formatting approximated by exact rationals),
lists join their elements with `", "`. -/
def displayValue (st : Store) : Nat → Value → String
  | 0, _ => ""
  | f + 1, v =>
    match v.core with
    | .number (.finite q) =>
      if q.den = 1 then toString q.num else toString q.num ++ "/" ++ toString q.den
    | .number .inf => "inf"
    | .str s => s
    | .list r =>
      String.intercalate ", " ((st.getList r).map (fun e => displayValue st f e))
    | .func name _ _ _ => "<function " ++ name ++ ">"
    | .builtin name => "<built-in function " ++ name ++ ">"

/-- Fetch a bound parameter from the execution context's table. -/
def execArg (st : Store) (ctx : Context) (name : String) : Option Value :=
  match ctx.symbolTable with
  | none => none
  | some r => SymbolTable.get st r name

mutual

/-- `Interpreter.visit` (3580-3583): dispatch on the node variant.  Every
case evaluates children left to right and forwards any non-success outcome
unchanged, except where a later case states otherwise (loops, calls). -/
def visit (fs : FS) : Nat → Node → Context → Store → Outcome × Store
| 0, _, _, st => (.timeout, st)
| fuel + 1, node, ctx, st =>
  match node with
  | .numberN tok ps pe =>
    let q := match tok.value with
      | some (.num n) => n
      | _ => .finite ⟨0, 1⟩
    (.success (((mkNumber q).set_context (some ctx)).set_pos (some ps) (some pe)), st)
  | .stringN tok ps pe =>
    let s := match tok.value with
      | some (.str s) => s
      | _ => ""
    (.success (((mkString s).set_context (some ctx)).set_pos (some ps) (some pe)), st)
  | .listN elems ps pe =>
    match visitListElements fs fuel elems ctx st [] with
    | (.halt o, st) => (o, st)
    | (.vals vs, st) =>
      let (r, st) := st.allocList vs
      (.success (((mkList r).set_context (some ctx)).set_pos (some ps) (some pe)), st)
  | .varAccess tok ps pe =>
    let varName := tokStr tok
    match ctx.symbolTable with
    | none => (.crash "AttributeError: symbol_table is None", st)
    | some r =>
      match SymbolTable.get st r varName with
      | none => (.error ⟨some ps, some pe, varName ++ " is not defined", some ctx⟩, st)
      | some value =>
        (.success ((value.copy.set_pos (some ps) (some pe)).set_context (some ctx)), st)
  | .varAssign tok valueNode _ _ =>
    match visit fs fuel valueNode ctx st with
    | (.success v, st) =>
      match ctx.symbolTable with
      | none => (.crash "AttributeError: symbol_table is None", st)
      | some r => (.success v, SymbolTable.set st r (tokStr tok) v)
    | (o, st) => (o, st)
  | .binOp l opTok r ps pe =>
    match visit fs fuel l ctx st with
    | (.success lv, st) =>
      match visit fs fuel r ctx st with
      | (.success rv, st) =>
        let opres :=
          if opTok.type = TOKEN_TYPE_PLUS then Value.added_to st lv rv
          else if opTok.type = TOKEN_TYPE_MINUS then Value.subtracted_by st lv rv
          else if opTok.type = TOKEN_TYPE_MULTIPLY then Value.multiplied_by st lv rv
          else if opTok.type = TOKEN_TYPE_DIVIDE then Value.divided_by st lv rv
          else if opTok.type = TOKEN_TYPE_MODULUS then Value.modulused_by st lv rv
          else if opTok.type = TOKEN_TYPE_POWER then Value.powered_by st lv rv
          else if opTok.type = TOKEN_TYPE_EQUAL_TO then
            Value.get_comparison PyFloat.beq st lv rv
          else if opTok.type = TOKEN_TYPE_NOT_EQUAL_TO then
            Value.get_comparison (fun a b => !PyFloat.beq a b) st lv rv
          else if opTok.type = TOKEN_TYPE_LESS_THAN then
            Value.get_comparison PyFloat.blt st lv rv
          else if opTok.type = TOKEN_TYPE_GREATER_THAN then
            Value.get_comparison PyFloat.bgt st lv rv
          else if opTok.type = TOKEN_TYPE_LESS_THAN_EQUAL_TO then
            Value.get_comparison PyFloat.ble st lv rv
          else if opTok.type = TOKEN_TYPE_GREATER_THAN_EQUAL_TO then
            Value.get_comparison PyFloat.bge st lv rv
          else if opTok.matches TOKEN_TYPE_KEYWORD "AND" then Value.anded_by st lv rv
          else if opTok.matches TOKEN_TYPE_KEYWORD "OR" then Value.ored_by st lv rv
          else OpResult.crash "NameError: calc_result referenced before assignment"
        match opres with
        | .ok v st => (.success (v.set_pos (some ps) (some pe)), st)
        | .err e st => (.error e, st)
        | .crash m => (.crash m, st)
      | (o, st) => (o, st)
    | (o, st) => (o, st)
  | .unaryOp opTok sub ps pe =>
    match visit fs fuel sub ctx st with
    | (.success v, st) =>
      let opres :=
        if opTok.type = TOKEN_TYPE_MINUS then
          Value.multiplied_by st v (mkNumber (.finite ⟨-1, 1⟩))
        else if opTok.matches TOKEN_TYPE_KEYWORD "NOT" then Value.notted st v
        else OpResult.ok v st
      match opres with
      | .ok v st => (.success (v.set_pos (some ps) (some pe)), st)
      | .err e st => (.error e, st)
      | .crash m => (.crash m, st)
    | (o, st) => (o, st)
  | .ifN cases elseCase _ _ => ifCasesLoop fs fuel cases elseCase ctx st
  | .forN varTok startN endN stepN? body shouldReturnNone ps pe =>
    match visit fs fuel startN ctx st with
    | (.success startV, st) =>
      match visit fs fuel endN ctx st with
      | (.success endV, st) =>
        let stepRes : (Outcome × Store) ⊕ (Value × Store) :=
          match stepN? with
          | some stepN =>
            match visit fs fuel stepN ctx st with
            | (.success sv, st) => Sum.inr (sv, st)
            | (o, st) => Sum.inl (o, st)
          | none => Sum.inr (mkNumber (.finite ⟨1, 1⟩), st)
        match stepRes with
        | Sum.inl (o, st) => (o, st)
        | Sum.inr (stepV, st) =>
          match startV.core, endV.core, stepV.core with
          | .number i0, .number endQ, .number stepQ =>
            match forLoop fs fuel varTok i0 endQ stepQ body ctx st [] with
            | (.halt o, st) => (o, st)
            | (.done elems, st) =>
              if shouldReturnNone then (.success Number.noneValue, st)
              else
                let (r, st) := st.allocList elems
                (.success (((mkList r).set_context (some ctx)).set_pos
                  (some ps) (some pe)), st)
          | _, _, _ =>
            (.crash "TypeError: non-numeric FOR bounds (host comparison or += raises)", st)
      | (o, st) => (o, st)
    | (o, st) => (o, st)
  | .whileN condN body shouldReturnNone ps pe =>
    match whileLoop fs fuel condN body ctx st [] with
    | (.halt o, st) => (o, st)
    | (.done elems, st) =>
      if shouldReturnNone then (.success Number.noneValue, st)
      else
        let (r, st) := st.allocList elems
        (.success (((mkList r).set_context (some ctx)).set_pos (some ps) (some pe)), st)
  | .funcDef varTok? argToks body autoRet ps pe =>
    let funcName : Option String := varTok?.map tokStr
    let name := match funcName with
      | some s => if s = "" then "<anonymous>" else s
      | none => "<anonymous>"
    let funcValue :=
      ((Value.mk (.func name body (argToks.map tokStr) autoRet) none none none).set_context
        (some ctx)).set_pos (some ps) (some pe)
    match varTok? with
    | some t =>
      match ctx.symbolTable with
      | none => (.crash "AttributeError: symbol_table is None", st)
      | some r => (.success funcValue, SymbolTable.set st r (tokStr t) funcValue)
    | none => (.success funcValue, st)
  | .callN callee argNodes ps pe =>
    match visit fs fuel callee ctx st with
    | (.success v0, st) =>
      let valueToCall := v0.copy.set_pos (some ps) (some pe)
      match visitListElements fs fuel argNodes ctx st [] with
      | (.halt o, st) => (o, st)
      | (.vals args, st) =>
        match executeValue fs fuel valueToCall args st with
        | (.success rv, st) =>
          (.success ((rv.copy.set_pos (some ps) (some pe)).set_context (some ctx)), st)
        | (o, st) => (o, st)
    | (o, st) => (o, st)
  | .returnN toReturn? _ps _pe =>
    match toReturn? with
    | some e =>
      match visit fs fuel e ctx st with
      | (.success v, st) => (.funcReturn v, st)
      | (o, st) => (o, st)
    | none => (.funcReturn Number.noneValue, st)
  | .continueN _ _ => (.cont, st)
  | .breakN _ _ => (.brk, st)
  | .importN strNode ps _pe =>
    match visit fs fuel strNode ctx st with
    | (.success filepathV, st) =>
      match filepathV.core with
      | .str path =>
        match fs path with
        | none =>
          (.error ⟨some strNode.pos_start, some strNode.pos_end,
            "Cant find file " ++ path, some ctx⟩, st)
        | some code =>
          let filename := (path.splitOn "/").getLastD path
          match run fs fuel filename code (some ctx) (some ps) true st with
          | (.lexParseErr e, st) =>
            (.error ⟨some strNode.pos_start, some strNode.pos_end,
              "Failed to IMPORT script " ++ filename ++ ": " ++ e.details,
              some ctx⟩, st)
          | (.fullResult o, st) =>
            match o with
            | .error e => (.error e, st)
            | .crash m => (.crash m, st)
            | .timeout => (.timeout, st)
            | _ => (.success Number.noneValue, st)
          | (.crash m, st) => (.crash m, st)
          | (.timeout, st) => (.timeout, st)
          | (.plain _ _, st) => (.crash "unreachable: run returned a plain pair", st)
      | _ => (.crash "TypeError: import target is not a string value", st)
    | (_, st) =>
      (.crash "AttributeError: NoneType has no attribute value (visit_ImportNode)", st)

/-- Evaluation of a node list left to right (list literal elements,
call arguments): stop at the first non-success outcome and forward it. -/
def visitListElements (fs : FS) : Nat → List Node → Context → Store →
    List Value → ElemsOut × Store
  | 0, _, _, st, _ => (.halt .timeout, st)
  | _ + 1, [], _, st, acc => (.vals acc, st)
  | fuel + 1, n :: ns, ctx, st, acc =>
    match visit fs fuel n ctx st with
    | (.success v, st) => visitListElements fs fuel ns ctx st (acc ++ [v])
    | (o, st) => (.halt o, st)

/-- `Interpreter.visit_IfNode` (3718-3762): first true condition wins;
a statement-form branch yields `Number.none`. -/
def ifCasesLoop (fs : FS) : Nat → List IfCase → Option ElseCase → Context →
    Store → Outcome × Store
  | 0, _, _, _, st => (.timeout, st)
  | fuel + 1, [], elseCase, ctx, st =>
    match elseCase with
    | some (exprN, shouldReturnNone) =>
      match visit fs fuel exprN ctx st with
      | (.success v, st) =>
        (.success (if shouldReturnNone then Number.noneValue else v), st)
      | (o, st) => (o, st)
    | none => (.success Number.noneValue, st)
  | fuel + 1, (condN, exprN, shouldReturnNone) :: rest, elseCase, ctx, st =>
    match visit fs fuel condN ctx st with
    | (.success condV, st) =>
      if condV.is_true then
        match visit fs fuel exprN ctx st with
        | (.success v, st) =>
          (.success (if shouldReturnNone then Number.noneValue else v), st)
        | (o, st) => (o, st)
      else ifCasesLoop fs fuel rest elseCase ctx st
    | (o, st) => (o, st)

/-- The iteration loop of `Interpreter.visit_ForNode` (3796-3831): the
loop variable is rebound in the current scope before each body
evaluation; `continue` skips collection, `break` ends the loop without
propagating, errors and returns are forwarded. -/
def forLoop (fs : FS) : Nat → Token → PyFloat → PyFloat → PyFloat → Node →
    Context → Store → List Value → LoopOut × Store
  | 0, _, _, _, _, _, _, st, _ => (.halt .timeout, st)
  | fuel + 1, varTok, i, endV, stepV, body, ctx, st, elems =>
    let condition := if stepV.nonneg then i.blt endV else i.bgt endV
    if !condition then (.done elems, st)
    else
      match ctx.symbolTable with
      | none => (.halt (.crash "AttributeError: symbol_table is None"), st)
      | some r =>
        let st := SymbolTable.set st r (tokStr varTok) (mkNumber i)
        let i' := i.add stepV
        match visit fs fuel body ctx st with
        | (.success v, st) =>
          forLoop fs fuel varTok i' endV stepV body ctx st (elems ++ [v])
        | (.cont, st) => forLoop fs fuel varTok i' endV stepV body ctx st elems
        | (.brk, st) => (.done elems, st)
        | (o, st) => (.halt o, st)

/-- The iteration loop of `Interpreter.visit_WhileNode` (3847-3878):
condition re-evaluated before each body evaluation; same signal handling
as the FOR loop. -/
def whileLoop (fs : FS) : Nat → Node → Node → Context → Store → List Value →
    LoopOut × Store
  | 0, _, _, _, st, _ => (.halt .timeout, st)
  | fuel + 1, condN, body, ctx, st, elems =>
    match visit fs fuel condN ctx st with
    | (.success condV, st) =>
      if !condV.is_true then (.done elems, st)
      else
        match visit fs fuel body ctx st with
        | (.success v, st) => whileLoop fs fuel condN body ctx st (elems ++ [v])
        | (.cont, st) => whileLoop fs fuel condN body ctx st elems
        | (.brk, st) => (.done elems, st)
        | (o, st) => (.halt o, st)
    | (o, st) => (.halt o, st)

/-- `Value.execute` dispatch: user functions, built-in functions, and the
base-class illegal-operation failure for every other value. -/
def executeValue (fs : FS) : Nat → Value → List Value → Store → Outcome × Store
  | 0, _, _, st => (.timeout, st)
  | fuel + 1, v, args, st =>
    match v.core with
    | .func name body argNames autoRet =>
      match generate_new_context v name st with
      | none =>
        (.crash "AttributeError: NoneType has no attribute symbol_table", st)
      | some (execCtx, st) =>
        if args.length > argNames.length then
          (.error ⟨v.posStart, v.posEnd,
            toString (args.length - argNames.length) ++
              " too many args passed into " ++ name, v.context⟩, st)
        else if args.length < argNames.length then
          (.error ⟨v.posStart, v.posEnd,
            toString (argNames.length - args.length) ++
              " too few args passed into " ++ name, v.context⟩, st)
        else
          let st := populateParams argNames args execCtx st
          match visit fs fuel body execCtx st with
          | (.success w, st) =>
            (.success (if autoRet then w else Number.noneValue), st)
          | (.funcReturn rv, st) => (.success rv, st)
          | (o, st) => (o, st)
    | .builtin name => executeBuiltin fs fuel v name args st
    | _ => (.error (v.illegal_operation none), st)

/-- `BuiltInFunction.execute` (3245-3266) plus the `execute_<name>`
method bodies.  Console and screen built-ins are the spec's abstract
side-effecting boundary: `Modelled from the spec:` `INPUT` yields the
empty string and `INPUT_INT` the integer 0. -/
def executeBuiltin (fs : FS) : Nat → Value → String → List Value → Store →
    Outcome × Store
  | 0, _, _, _, st => (.timeout, st)
  | fuel + 1, self, name, args, st =>
    match generate_new_context self name st with
    | none =>
      (.crash "AttributeError: NoneType has no attribute symbol_table", st)
    | some (execCtx, st) =>
      match builtinArgNames name with
      | none => (.crash ("AttributeError: no execute_" ++ name ++ " method"), st)
      | some argNames =>
        if args.length > argNames.length then
          (.error ⟨self.posStart, self.posEnd,
            toString (args.length - argNames.length) ++
              " too many args passed into " ++ name, self.context⟩, st)
        else if args.length < argNames.length then
          (.error ⟨self.posStart, self.posEnd,
            toString (argNames.length - args.length) ++
              " too few args passed into " ++ name, self.context⟩, st)
        else
          let st := populateParams argNames args execCtx st
          builtinMethod fs fuel name self execCtx st

/-- The `execute_<name>` bodies (3282-3508). -/
def builtinMethod (fs : FS) : Nat → String → Value → Context → Store →
    Outcome × Store
  | 0, _, _, _, st => (.timeout, st)
  | fuel + 1, name, self, execCtx, st =>
    if name = "print" then
      let v := (execArg st execCtx "value").getD Number.noneValue
      (.success Number.noneValue,
        { st with output := st.output ++ [displayValue st (fuel + 1) v] })
    else if name = "print_ret" then
      let v := (execArg st execCtx "value").getD Number.noneValue
      (.success (mkString (displayValue st (fuel + 1) v)), st)
    else if name = "input" then (.success (mkString ""), st)
    else if name = "input_int" then (.success (mkNumber (.finite ⟨0, 1⟩)), st)
    else if name = "clear" then (.success Number.noneValue, st)
    else if name = "is_number" then
      let v := (execArg st execCtx "value").getD Number.noneValue
      (.success (match v.core with
        | .number _ => Number.trueValue
        | _ => Number.falseValue), st)
    else if name = "is_string" then
      let v := (execArg st execCtx "value").getD Number.noneValue
      (.success (match v.core with
        | .str _ => Number.trueValue
        | _ => Number.falseValue), st)
    else if name = "is_list" then
      let v := (execArg st execCtx "value").getD Number.noneValue
      (.success (match v.core with
        | .list _ => Number.trueValue
        | _ => Number.falseValue), st)
    else if name = "is_function" then
      let v := (execArg st execCtx "value").getD Number.noneValue
      (.success (match v.core with
        | .func _ _ _ _ => Number.trueValue
        | .builtin _ => Number.trueValue
        | _ => Number.falseValue), st)
    else if name = "append" then
      let l := (execArg st execCtx "list").getD Number.noneValue
      let v := (execArg st execCtx "value").getD Number.noneValue
      match l.core with
      | .list r =>
        (.success Number.noneValue, st.setList r (st.getList r ++ [v]))
      | _ =>
        (.error ⟨self.posStart, self.posEnd, ERRORS "arg1_list_expected",
          some execCtx⟩, st)
    else if name = "pop" then
      let l := (execArg st execCtx "list").getD Number.noneValue
      let idx := (execArg st execCtx "index").getD Number.noneValue
      match l.core with
      | .list r =>
        match idx.core with
        | .number (.finite q) =>
          if q.isInt then
            let elems := st.getList r
            match pyListIndex elems.length q.num with
            | some i =>
              (.success ((elems.get? i).getD Number.noneValue),
                st.setList r (elems.eraseIdx i))
            | none =>
              (.error ⟨self.posStart, self.posEnd, ERRORS "list_index_error",
                some execCtx⟩, st)
          else (.crash "TypeError: list pop index must be an integer", st)
        | .number .inf => (.crash "OverflowError: infinite index", st)
        | _ =>
          (.error ⟨self.posStart, self.posEnd, ERRORS "arg2_number_expected",
            some execCtx⟩, st)
      | _ =>
        (.error ⟨self.posStart, self.posEnd, ERRORS "arg1_list_expected",
          some execCtx⟩, st)
    else if name = "extend" then
      let la := (execArg st execCtx "listA").getD Number.noneValue
      let lb := (execArg st execCtx "listB").getD Number.noneValue
      match la.core with
      | .list ra =>
        match lb.core with
        | .list rb =>
          (.success Number.noneValue, st.setList ra (st.getList ra ++ st.getList rb))
        | _ =>
          (.error ⟨self.posStart, self.posEnd, ERRORS "arg2_list_expected",
            some execCtx⟩, st)
      | _ =>
        (.error ⟨self.posStart, self.posEnd, ERRORS "arg1_list_expected",
          some execCtx⟩, st)
    else if name = "len" then
      let l := (execArg st execCtx "list").getD Number.noneValue
      match l.core with
      | .list r =>
        (.success (mkNumber (.finite ⟨((st.getList r).length : Int), 1⟩)), st)
      | _ =>
        (.error ⟨self.posStart, self.posEnd, ERRORS "arg_list_expected",
          some execCtx⟩, st)
    else if name = "run" then
      let fn := (execArg st execCtx "filename").getD Number.noneValue
      match fn.core with
      | .str filename =>
        let st := { st with output := st.output ++
          ["WARNING: run() is deprecated. Use IMPORT instead"] }
        match fs filename with
        | none =>
          (.error ⟨self.posStart, self.posEnd,
            "Failed to load script " ++ filename, some execCtx⟩, st)
        | some script =>
          match run fs fuel filename script none none false st with
          | (.lexParseErr _, st) =>
            (.error ⟨self.posStart, self.posEnd,
              "Failed to finish executing script " ++ filename, some execCtx⟩, st)
          | (.plain _ (some _), st) =>
            (.error ⟨self.posStart, self.posEnd,
              "Failed to finish executing script " ++ filename, some execCtx⟩, st)
          | (.plain _ none, st) => (.success Number.noneValue, st)
          | (.fullResult _, st) => (.crash "unreachable: run returned full result", st)
          | (.crash m, st) => (.crash m, st)
          | (.timeout, st) => (.timeout, st)
      | _ =>
        (.error ⟨self.posStart, self.posEnd, ERRORS "arg2_string_expected",
          some execCtx⟩, st)
    else (.crash ("AttributeError: no execute_" ++ name ++ " method"), st)

/-- `run` (4051-4084): lex, parse, build the `<program>` context — the
process-wide global table when there is no parent, otherwise the *same*
table reference as the parent — evaluate, and either hand back the raw
result carrier (`return_result=True`) or the `(value, error)` pair. -/
def run (fs : FS) : Nat → String → String → Option Context → Option Position →
    Bool → Store → RunOut × Store
  | 0, _, _, _, _, _, st => (.timeout, st)
  | fuel + 1, _filename, text, context?, entryPos, returnResult, st =>
    match make_tokens fuel text with
    | .crash m => (.crash m, st)
    | .timeout => (.timeout, st)
    | .ok (_, some e) => (.lexParseErr e, st)
    | .ok (tokens, none) =>
      match Parser.parse fuel (Parser.init tokens) with
      | .crash m => (.crash m, st)
      | .timeout => (.timeout, st)
      | .ok (_, ast) =>
        match ast.error with
        | some e => (.lexParseErr e, st)
        | none =>
          match ast.node with
          | none => (.crash "run: parse produced no node", st)
          | some node =>
            let tableRef : Option Nat :=
              match context? with
              | none => some 0
              | some p => p.symbolTable
            let ctx := Context.mk "<program>" context? entryPos tableRef
            match visit fs fuel node ctx st with
            | (o, st) =>
              if returnResult then (.fullResult o, st)
              else
                match o with
                | .success v => (.plain (some v) none, st)
                | .error e => (.plain none (some e), st)
                | .crash m => (.crash m, st)
                | .timeout => (.timeout, st)
                | _ => (.plain none none, st)

end

/-- The `BuiltInFunction` singletons (3511-3524) and the module-level
`global_symbol_table` (4029-4048): table 0 of the initial store. -/
def global_symbol_table : STable :=
  { symbols := [
      ("NONE", Number.noneValue),
      ("FALSE", Number.falseValue),
      ("TRUE", Number.trueValue),
      ("MATH_PI", Number.mathPI),
      ("PRINT", ⟨.builtin "print", none, none, none⟩),
      ("PRINT_RET", ⟨.builtin "print_ret", none, none, none⟩),
      ("INPUT", ⟨.builtin "input", none, none, none⟩),
      ("INPUT_INT", ⟨.builtin "input_int", none, none, none⟩),
      ("CLEAR", ⟨.builtin "clear", none, none, none⟩),
      ("CLS", ⟨.builtin "clear", none, none, none⟩),
      ("IS_NUM", ⟨.builtin "is_number", none, none, none⟩),
      ("IS_STR", ⟨.builtin "is_string", none, none, none⟩),
      ("IS_LIST", ⟨.builtin "is_list", none, none, none⟩),
      ("IS_FUN", ⟨.builtin "is_function", none, none, none⟩),
      ("APPEND", ⟨.builtin "append", none, none, none⟩),
      ("POP", ⟨.builtin "pop", none, none, none⟩),
      ("EXTEND", ⟨.builtin "extend", none, none, none⟩),
      ("LEN", ⟨.builtin "len", none, none, none⟩),
      ("RUN", ⟨.builtin "run", none, none, none⟩)],
    parent := none }

/-- The store at process start: only the global symbol table. -/
def initialStore : Store := { tables := [global_symbol_table], lists := [], output := [] }

/-- A top-level `run` call as the REPL performs it: no parent context, no
entry position, unwrapped `(value, error)` result. -/
def runProgram (fs : FS) (fuel : Nat) (text : String) : RunOut × Store :=
  run fs fuel "<stdin>" text none none false initialStore

/-- The empty file system (no importable files). -/
def noFS : FS := fun _ => none

/-! ## Projections used to state concrete end-to-end results -/

/-- The details string of a parse-side result's error, when any. -/
def parseErrDetails (r : Res (PState × PResult Node)) : Option String :=
  match r with
  | .ok (_, res) => res.error.map (fun e => e.details)
  | _ => none

/-- The advance count of a parse-side result. -/
def parseAdvanceCount (r : Res (PState × PResult Node)) : Option Nat :=
  match r with
  | .ok (_, res) => some res.advanceCount
  | _ => none

/-- Whether lexing succeeded with no error. -/
def lexNoError (r : Res (List Token × Option PError)) : Bool :=
  match r with
  | .ok (_, none) => true
  | _ => false

/-- The `(type, value)` shapes of the emitted tokens. -/
def lexTokenShapes (r : Res (List Token × Option PError)) :
    Option (List (String × Option TokenValue)) :=
  match r with
  | .ok (toks, none) => some (toks.map (fun t => (t.type, t.value)))
  | _ => none

/-- The details string of a lexer error, when any. -/
def lexErrDetails (r : Res (List Token × Option PError)) : Option String :=
  match r with
  | .ok (_, some e) => some e.details
  | _ => none

/-- The details string of a top-level runtime error, when any. -/
def runErrDetails (r : RunOut × Store) : Option String :=
  match r with
  | (.plain _ (some e), _) => some e.details
  | _ => none

/-- The element cores of the top-level statement-value list produced by a
successful plain `run`. -/
def runTopValues (r : RunOut × Store) : Option (List ValueCore) :=
  match r with
  | (.plain (some v) none, st) =>
    match v.core with
    | .list ref => some ((st.getList ref).map (fun e => e.core))
    | _ => none
  | _ => none

/-- For a one-statement program whose statement value is itself a list: the
element cores of that inner list. -/
def runSingleListStatement (r : RunOut × Store) : Option (List ValueCore) :=
  match r with
  | (.plain (some v) none, st) =>
    match v.core with
    | .list ref =>
      match st.getList ref with
      | [inner] =>
        match inner.core with
        | .list innerRef => some ((st.getList innerRef).map (fun e => e.core))
        | _ => none
      | _ => none
    | _ => none
  | _ => none

/-- The store a `run` finished with. -/
def runFinalStore (r : RunOut × Store) : Store := r.2

/-- The core of a global variable after a top-level run. -/
def globalVarCore (st : Store) (name : String) : Option ValueCore :=
  (SymbolTable.get st 0 name).map (fun v => v.core)

/-! ## Claims -/

theorem res_bind_ok {α β : Type} (a : α) (f : α → Res β) :
    (Res.ok a) >>= f = f a := rfl

theorem res_pure_ok {α : Type} (a : α) : (pure a : Res α) = Res.ok a := rfl

/-- Tokens of the program `1` newline `VAR x` (a statement list whose
continuation attempt consumes two tokens — `VAR` and `x` — and then fails
expecting `=`). -/
def c1Tokens : List Token :=
  match make_tokens 99 ("1" ++ String.mk [newlineChar] ++ "VAR x") with
  | .ok (t, _) => t
  | _ => []

/-- Parser state at the newline after `1`. -/
def c1S : PState := (Parser.init c1Tokens).advance

/-- Parser state where `parse_any_additional_statements` attempts the
further statement (just past the newline, at `VAR`). -/
def c1AttemptState : PState := c1S.advance

/-- The `ParseResult` bookkeeping right after the newline was consumed. -/
def c1R1 : PResult Node := { lastRegisteredAdvanceCount := 1, advanceCount := 1 }

/-- The state after the failed further-statement attempt. -/
def c1S2 : PState :=
  match statement 99 false false c1AttemptState with
  | .ok (s, _) => s
  | _ => Parser.init []

/-- The failed further-statement attempt's own result. -/
def c1RS : PResult Node :=
  match statement 99 false false c1AttemptState with
  | .ok (_, r) => r
  | _ => {}

/-- C1 counterexample.  On `1` newline `VAR x`, the further-statement
attempt fails with the assignment-expected error after consuming two
tokens, yet the error reported for the whole parse is the generic
tokens-out-of-place error at the leftover token — the attempt's own error
does **not** propagate to the top, contradicting the claim. -/
theorem claim1_sticky_error_counterexample :
    parseErrDetails (statement 99 false false c1AttemptState) =
      some (ERRORS "equal_expected")
    ∧ parseAdvanceCount (statement 99 false false c1AttemptState) = some 2
    ∧ parseErrDetails (Parser.parse 99 (Parser.init c1Tokens)) =
      some (ERRORS "tokens_out_of_place")
    ∧ ERRORS "tokens_out_of_place" ≠ ERRORS "equal_expected" := by
  refine ⟨rfl, rfl, rfl, ?_⟩
  decide

/-- C1 (amended).  When the statement-list continuation attempt fails —
having consumed any number of tokens, one or more included — its error is
discarded by `try_register`: the loop rewinds the cursor by the attempt's
full advance count, keeps the statement list unchanged, and continues with
`more_statements = False`; once the rewound cursor is not at a newline the
loop returns the untouched (error-free) result, so the attempt's error
never propagates.  (The whole parse then fails only through the generic
tokens-out-of-place check in `parse`, as the counterexample shows.) -/
theorem claim1_failed_attempt_discarded (fuel : Nat) (inF inL : Bool)
    (stmts : List Node) (result r1 rs : PResult Node) (s s1 s2 : PState)
    (count : Nat)
    (hskip : skipNewlinesLoop fuel s result 0 = .ok (s1, r1, count))
    (hcount : count ≠ 0)
    (hstmt : statement fuel inF inL s1 = .ok (s2, rs))
    (herr : rs.error.isSome = true) :
    (parse_any_additional_statements (fuel + 1) inF inL true stmts result s =
      parse_any_additional_statements fuel inF inL false stmts
        { r1 with toReverseCount := rs.advanceCount } (s2.reverse rs.advanceCount))
    ∧ ∀ (g : Nat) (st : PState) (res : PResult Node) (sl : List Node),
        st.currentToken.type ≠ TOKEN_TYPE_NEWLINE →
        parse_any_additional_statements (g + 2) inF inL false sl res st =
          .ok (st, sl, res) := by
  constructor
  · obtain ⟨e, he⟩ := Option.isSome_iff_exists.mp herr
    simp only [parse_any_additional_statements, hskip, res_bind_ok, if_neg hcount,
      Bool.not_true, reduceIte, hstmt, PResult.tryRegister, he]
    rfl
  · intro g st res sl hcur
    simp only [parse_any_additional_statements, skipNewlinesLoop, if_neg hcur,
      res_bind_ok, reduceIte, Bool.not_false, res_pure_ok]

/-- C1 witness: the amended behaviour at the concrete `1` newline `VAR x`
scenario (the attempt consumed two tokens; its error is discarded and the
continuation loop then ends without error). -/
theorem claim1_failed_attempt_discarded_witness :
    (parse_any_additional_statements 100 false false true [] {} c1S =
      parse_any_additional_statements 99 false false false []
        { c1R1 with toReverseCount := c1RS.advanceCount }
        (c1S2.reverse c1RS.advanceCount))
    ∧ parse_any_additional_statements 50 false false false [] {} c1AttemptState =
        .ok (c1AttemptState, [], {}) := by
  refine ⟨(claim1_failed_attempt_discarded 99 false false [] {} c1R1 c1RS c1S
    c1AttemptState c1S2 1 rfl (by decide) rfl rfl).1, ?_⟩
  exact (claim1_failed_attempt_discarded 99 false false [] {} c1R1 c1RS c1S
    c1AttemptState c1S2 1 rfl (by decide) rfl rfl).2 48 c1AttemptState {} []
    (by decide)

/-- C2.  Evaluating `"ab" * 3` does **not** repeat the string: the `*`
dispatch calls `multiplied_by`, which `String` does not define (its repeat
method is misspelled `multplied_by` and therefore dead code), so the base
class reports an Illegal operation runtime error.  The third conjunct
shows the dead method itself would have produced `"ababab"`, witnessing
the intended behaviour the claim (and the spec) describe. -/
theorem claim2_string_times_number_is_illegal_operation :
    runErrDetails (runProgram noFS 99 ("\"ab\"" ++ " * 3")) = some "Illegal operation"
    ∧ Value.multiplied_by initialStore (mkString "ab") (mkNumber (.finite ⟨3, 1⟩)) =
        .err ((mkString "ab").illegal_operation (some (mkNumber (.finite ⟨3, 1⟩))))
          initialStore
    ∧ String_multplied_by (mkString "ab") (mkNumber (.finite ⟨3, 1⟩)) =
        some (mkString "ababab") := by
  exact ⟨rfl, rfl, rfl⟩

/-- C3.  Parsing an anonymous function definition with at least one
declared parameter crashes the parser with an unhandled host exception:
`parse_params_and_arrow` reads `var_name_token.value` while
`var_name_token` is `None`.  The named and the zero-parameter anonymous
forms parse without error, isolating the crash to exactly the inputs the
claim says are safe. -/
theorem claim3_anonymous_fun_with_params_crashes :
    runProgram noFS 99 "FUN (a) -> a" =
      (.crash "AttributeError: NoneType object has no attribute value", initialStore)
    ∧ runProgram noFS 99 "FUN (a, b) -> a + b" =
      (.crash "AttributeError: NoneType object has no attribute value", initialStore)
    ∧ runErrDetails (runProgram noFS 99 "FUN f(a) -> a") = none
    ∧ runErrDetails (runProgram noFS 99 "FUN () -> 1") = none := by
  exact ⟨rfl, rfl, rfl, rfl⟩

/-- Is the value a `Function` or `BuiltInFunction` (a `BaseFunction`)? -/
def Value.isFunctionLike (v : Value) : Bool :=
  match v.core with
  | .func _ _ _ _ => true
  | .builtin _ => true
  | _ => false

/-- C6.  Closure invariant: once a function-like value's context is set to
a (non-`None`, hence truthy) context `c`, every later `set_context` —
directly, after `copy()`, or through the copy-and-restamp performed by
`visit_VarAccessNode` — leaves it at `c`; and `generate_new_context`
builds the call's execution context as a fresh table whose parent is `c`'s
own table (the defining scope), taking no caller input at all. -/
theorem claim6_closure_context_permanent (v : Value) (c : Context)
    (hfn : v.isFunctionLike = true) (hctx : v.context = some c) :
    (∀ ctx2, (v.set_context ctx2).context = some c)
    ∧ v.copy.context = some c
    ∧ (∀ ps pe ctx2, ((v.copy.set_pos ps pe).set_context ctx2).context = some c)
    ∧ (∀ name st,
        generate_new_context v name st =
          some (Context.mk name (some c) v.posStart (some st.tables.length),
            { st with tables := st.tables ++ [{ symbols := [], parent := c.symbolTable }] })) := by
  obtain ⟨core, vps, vpe, vctx⟩ := v
  cases core <;> simp_all [Value.isFunctionLike, Value.set_context, Value.copy,
    Value.set_pos, generate_new_context, Store.allocTable]

/-- A defining context for the C6 witness. -/
def c6DefCtx : Context := Context.mk "<program>" none none (some 0)

/-- A built-in function value owned by `c6DefCtx`. -/
def c6Fun : Value := ⟨.builtin "print", none, none, some c6DefCtx⟩

/-- A distinct caller context for the C6 witness. -/
def c6Other : Context := Context.mk "caller" none none (some 7)

/-- C6 witness: the closure invariant at a concrete function value. -/
theorem claim6_closure_context_permanent_witness :
    (c6Fun.set_context (some c6Other)).context = some c6DefCtx
    ∧ c6Fun.copy.context = some c6DefCtx
    ∧ ((c6Fun.copy.set_pos none none).set_context (some c6Other)).context = some c6DefCtx
    ∧ generate_new_context c6Fun "print" initialStore =
        some (Context.mk "print" (some c6DefCtx) c6Fun.posStart
          (some initialStore.tables.length),
          { initialStore with tables := initialStore.tables ++
            [{ symbols := [], parent := c6DefCtx.symbolTable }] }) := by
  have h := claim6_closure_context_permanent c6Fun c6DefCtx rfl rfl
  exact ⟨h.1 (some c6Other), h.2.1, h.2.2.1 none none (some c6Other),
    h.2.2.2 "print" initialStore⟩

/-- The final state of the C8 aliasing program: `VAR l = [1]` then
`VAR m = l + 2` then `l`. -/
def c8Run : RunOut × Store :=
  run noFS 99 "<stdin>"
    ("VAR l = [1]" ++ String.mk [newlineChar] ++ "VAR m = l + 2" ++
      String.mk [newlineChar] ++ "l")
    none none false initialStore

/-- C8.  List `+` builds its result through `copy()`: the returned wrapper
holds the very same `elementsRef` as the left operand, and the append goes
through that shared backing sequence, so it is observable through `a` and
every other alias; `-` removes through the same shared sequence.  The
closed conjuncts run the aliasing program: afterwards `l` and `m` are two
wrappers over the same backing sequence, which holds both elements. -/
theorem claim8_list_plus_aliases_backing (st : Store) (a x : Value) (r : Nat)
    (ha : a.core = .list r) :
    Value.added_to st a x = .ok a.copy (st.setList r (st.getList r ++ [x]))
    ∧ a.copy.core = .list r
    ∧ (r < st.lists.length →
        (st.setList r (st.getList r ++ [x])).getList r = st.getList r ++ [x])
    ∧ (∀ (n : Value) (q : MRat) (i : Nat),
        n.core = .number (.finite q) → q.isInt = true →
        pyListIndex (st.getList r).length q.num = some i →
        Value.subtracted_by st a n =
          .ok a.copy (st.setList r ((st.getList r).eraseIdx i)))
    ∧ globalVarCore (runFinalStore c8Run) "l" = some (.list 0)
    ∧ globalVarCore (runFinalStore c8Run) "m" = some (.list 0)
    ∧ ((runFinalStore c8Run).getList 0).map (fun e => e.core) =
        [.number (.finite ⟨1, 1⟩), .number (.finite ⟨2, 1⟩)] := by
  refine ⟨?_, ?_, ?_, ?_, rfl, rfl, rfl⟩
  · simp only [Value.added_to, ha]
  · simp only [Value.copy, Value.set_pos, Value.set_context, ha]
  · intro hr
    simp only [Store.getList, Store.setList, List.get?_eq_getElem?,
      List.getElem?_set_self]
    simp [hr]
  · intro n q i hn hq hi
    simp only [Value.subtracted_by, ha, hn, hq, if_true, hi]

/-- C8 witness: the aliasing equations at a concrete store and list. -/
theorem claim8_list_plus_aliases_backing_witness :
    Value.added_to { lists := [[Number.trueValue]] } (mkList 0) (mkString "x") =
      .ok (mkList 0).copy
        ({ lists := [[Number.trueValue]] : Store }.setList 0
          ({ lists := [[Number.trueValue]] : Store }.getList 0 ++ [mkString "x"]))
    ∧ Value.subtracted_by { lists := [[Number.trueValue]] } (mkList 0)
        (mkNumber (.finite ⟨0, 1⟩)) =
      .ok (mkList 0).copy
        ({ lists := [[Number.trueValue]] : Store }.setList 0
          (({ lists := [[Number.trueValue]] : Store }.getList 0).eraseIdx 0)) := by
  have h := claim8_list_plus_aliases_backing { lists := [[Number.trueValue]] }
    (mkList 0) (mkString "x") 0 rfl
  have h2 := claim8_list_plus_aliases_backing { lists := [[Number.trueValue]] }
    (mkList 0) (mkNumber (.finite ⟨0, 1⟩)) 0 rfl
  exact ⟨h.1, h2.2.2.2.1 (mkNumber (.finite ⟨0, 1⟩)) ⟨0, 1⟩ 0 rfl rfl rfl⟩

/-- The final state of the C9 evaluate-once program: the FOR start
expression increments `c`; after the loop `c` is exactly 1. -/
def c9Run : RunOut × Store :=
  run noFS 99 "<stdin>"
    ("VAR c = 0" ++ String.mk [newlineChar] ++
      "FOR i = (VAR c = c + 1) TO 3 THEN i" ++ String.mk [newlineChar] ++ "c")
    none none false initialStore

/-- C9.  FOR semantics: the loop iterates while the counter is `<` the end
value when `step >= 0` and while it is `>` the end value when `step < 0`
(first conjunct: a false condition ends the loop at once); before each body
evaluation the loop variable is rebound to the counter in the current
scope's own table, the body's value is collected and the counter advances
by the step (second conjunct).  The closed conjuncts: the single-line
expression `FOR i = 0 TO 3 THEN i` evaluates to the list `[0, 1, 2]`, and
the start expression is evaluated exactly once before looping (a counting
side effect in the start expression fires once). -/
theorem claim9_for_loop_semantics :
    (∀ fs fuel varTok (i endV stepV : PyFloat) body ctx st elems,
      (if stepV.nonneg then i.blt endV else i.bgt endV) = false →
      forLoop fs (fuel + 1) varTok i endV stepV body ctx st elems = (.done elems, st))
    ∧ (∀ fs fuel varTok (i endV stepV : PyFloat) body ctx st elems r v st2,
      (if stepV.nonneg then i.blt endV else i.bgt endV) = true →
      ctx.symbolTable = some r →
      visit fs fuel body ctx (SymbolTable.set st r (tokStr varTok) (mkNumber i)) =
        (.success v, st2) →
      forLoop fs (fuel + 1) varTok i endV stepV body ctx st elems =
        forLoop fs fuel varTok (i.add stepV) endV stepV body ctx st2 (elems ++ [v]))
    ∧ runSingleListStatement (runProgram noFS 99 "FOR i = 0 TO 3 THEN i") =
        some [.number (.finite ⟨0, 1⟩), .number (.finite ⟨1, 1⟩),
          .number (.finite ⟨2, 1⟩)]
    ∧ globalVarCore (runFinalStore c9Run) "c" = some (.number (.finite ⟨1, 1⟩)) := by
  refine ⟨?_, ?_, rfl, rfl⟩
  · intro fs fuel varTok i endV stepV body ctx st elems hcond
    simp only [forLoop, hcond, Bool.not_false, reduceIte]
  · intro fs fuel varTok i endV stepV body ctx st elems r v st2 hcond htab hbody
    simp only [forLoop, hcond, Bool.not_true, reduceIte, htab, hbody]
    rfl

/-- A `<program>` context over the global table, for concrete witnesses. -/
def c9Ctx : Context := Context.mk "<program>" none none (some 0)

/-- The loop-variable token `i` for the C9 witness. -/
def c9Tok : Token := Token.make TOKEN_TYPE_IDENTIFIER (some (.str "i")) ⟨0, 0, 0⟩ none

/-- A body node for the C9 witness: the literal `7`. -/
def c9Body : Node :=
  .numberN (Token.make TOKEN_TYPE_INT (some (.num (.finite ⟨7, 1⟩))) ⟨0, 0, 0⟩ none)
    ⟨0, 0, 0⟩ ⟨0, 0, 0⟩

/-- The value the C9 witness body evaluates to. -/
def c9BodyVal : Value :=
  ((mkNumber (.finite ⟨7, 1⟩)).set_context (some c9Ctx)).set_pos
    (some ⟨0, 0, 0⟩) (some ⟨0, 0, 0⟩)

/-- The store after the C9 witness iteration rebinds `i` to 0. -/
def c9St1 : Store := SymbolTable.set initialStore 0 "i" (mkNumber (.finite ⟨0, 1⟩))

/-- C9 witness: a loop whose condition is initially false ends at once, and
one iteration of `FOR`, at concrete values, rebinds the variable and
collects the body value. -/
theorem claim9_for_loop_semantics_witness :
    forLoop noFS 10 c9Tok (.finite ⟨3, 1⟩) (.finite ⟨3, 1⟩) (.finite ⟨1, 1⟩)
      c9Body c9Ctx initialStore [] = (.done [], initialStore)
    ∧ forLoop noFS 10 c9Tok (.finite ⟨0, 1⟩) (.finite ⟨1, 1⟩) (.finite ⟨1, 1⟩)
        c9Body c9Ctx initialStore [] =
      forLoop noFS 9 c9Tok ((PyFloat.finite ⟨0, 1⟩).add (.finite ⟨1, 1⟩))
        (.finite ⟨1, 1⟩) (.finite ⟨1, 1⟩) c9Body c9Ctx c9St1 [c9BodyVal] := by
  constructor
  · exact claim9_for_loop_semantics.1 noFS 9 c9Tok
      (.finite ⟨3, 1⟩) (.finite ⟨3, 1⟩) (.finite ⟨1, 1⟩)
      c9Body c9Ctx initialStore [] rfl
  · exact claim9_for_loop_semantics.2.1 noFS 9 c9Tok
      (.finite ⟨0, 1⟩) (.finite ⟨1, 1⟩) (.finite ⟨1, 1⟩)
      c9Body c9Ctx initialStore [] 0 c9BodyVal c9St1 rfl rfl rfl

/-- The decimal literal `1` followed by 309 zeros and `.0`: a float literal
whose host conversion overflows to infinity. -/
def c4InfiniteLiteral : String := "1" ++ String.mk (List.replicate 309 '0') ++ ".0"

/-- C4.  A non-exponent float literal that converts to host infinity is
lexed **successfully** into a FLOAT token carrying infinity, instead of
failing with the number-overflow error: in `make_number` the test
`(math.isinf(x) or math.log10(x)) >= 308` compares the boolean `True`
against 308 for an infinite value, which is false.  The second group of
conjuncts shows the exponent-form path (whose parenthesisation is correct)
does raise overflow for the same magnitude, and that a finite literal with
`log10 >= 308` raises overflow as the claim states — the divergence is
specific to infinite non-exponent literals. -/
theorem claim4_infinite_float_literal_lexes_without_overflow :
    lexNoError (make_tokens 999 c4InfiniteLiteral) = true
    ∧ lexTokenShapes (make_tokens 999 c4InfiniteLiteral) =
        some [(TOKEN_TYPE_FLOAT, some (.num .inf)), (TOKEN_TYPE_EOF, none)]
    ∧ lexErrDetails (make_tokens 99 "1e309") = some (ERRORS "exponent_overflow")
    ∧ lexErrDetails (make_tokens 99 "2e308") = some (ERRORS "exponent_overflow")
    ∧ lexErrDetails (make_tokens 99 "1e-309") = some (ERRORS "exponent_underflow") := by
  exact ⟨rfl, rfl, rfl, rfl, rfl⟩

/-- The tokens of a successful lex, or `[]`. -/
def resTokens (r : Res (List Token × Option PError)) : List Token :=
  match r with
  | .ok (t, _) => t
  | _ => []

/-- The parser state of a successful parse, or the fallback. -/
def resPState (r : Res (PState × PResult Node)) (dflt : PState) : PState :=
  match r with
  | .ok (s, _) => s
  | _ => dflt

/-- The result carrier of a successful parse, or an empty one. -/
def resPResult (r : Res (PState × PResult Node)) : PResult Node :=
  match r with
  | .ok (_, q) => q
  | _ => {}

/-- The file system of the C7 import test: one importable file `lib`
defining `x`. -/
def c7FS : FS := fun n => if n = "lib" then some "VAR x = 5" else none

/-- The C7 import program: `IMPORT "lib"` then the expression `x`. -/
def c7Program : String :=
  "IMPORT " ++ String.mk [quoteChar] ++ "lib" ++ String.mk [quoteChar] ++
    String.mk [newlineChar] ++ "x"

/-- The result of running the C7 import program. -/
def c7Run : RunOut × Store := run c7FS 99 "<stdin>" c7Program none none false initialStore

/-- C7.  Scope sharing across `run`: with a parent context the `<program>`
context is built over the **same** symbol-table reference as the parent
(first conjunct) — no child table is allocated — and only a parentless run
uses the process-wide global table, reference 0 (second conjunct).  The
closed conjuncts run `IMPORT "lib"` (where `lib` is `VAR x = 5`) followed
by `x`: the import statement yields `Number.none` (0), the subsequent `x`
yields 5, and `x` is bound in the importer's global table afterwards. -/
theorem claim7_import_shares_symbol_table :
    (∀ fs fuel fn text p ep st tokens ps ast node o stv,
      make_tokens fuel text = .ok (tokens, none) →
      Parser.parse fuel (Parser.init tokens) = .ok (ps, ast) →
      ast.error = none → ast.node = some node →
      visit fs fuel node (Context.mk "<program>" (some p) ep p.symbolTable) st =
        (o, stv) →
      run fs (fuel + 1) fn text (some p) ep true st = (.fullResult o, stv))
    ∧ (∀ fs fuel fn text ep st tokens ps ast node o stv,
      make_tokens fuel text = .ok (tokens, none) →
      Parser.parse fuel (Parser.init tokens) = .ok (ps, ast) →
      ast.error = none → ast.node = some node →
      visit fs fuel node (Context.mk "<program>" none ep (some 0)) st = (o, stv) →
      run fs (fuel + 1) fn text none ep true st = (.fullResult o, stv))
    ∧ runTopValues c7Run =
        some [.number (.finite ⟨0, 1⟩), .number (.finite ⟨5, 1⟩)]
    ∧ globalVarCore (runFinalStore c7Run) "x" = some (.number (.finite ⟨5, 1⟩)) := by
  refine ⟨?_, ?_, rfl, rfl⟩
  · intro fs fuel fn text p ep st tokens ps ast node o stv hlex hparse herr hnode hv
    simp only [run, hlex, hparse, herr, hnode, hv, reduceIte]
  · intro fs fuel fn text ep st tokens ps ast node o stv hlex hparse herr hnode hv
    simp only [run, hlex, hparse, herr, hnode, hv, reduceIte]

/-- The C7 witness program text: the literal `1`. -/
def c7Text : String := "1"

/-- The tokens of the C7 witness program. -/
def c7Toks : List Token := resTokens (make_tokens 99 c7Text)

/-- The parser state after parsing the C7 witness program. -/
def c7PS : PState := resPState (Parser.parse 99 (Parser.init c7Toks)) (Parser.init c7Toks)

/-- The parse result of the C7 witness program. -/
def c7Ast : PResult Node := resPResult (Parser.parse 99 (Parser.init c7Toks))

/-- The root node of the C7 witness program. -/
def c7Node : Node := (c7Ast.node).getD (.breakN ⟨0, 0, 0⟩ ⟨0, 0, 0⟩)

/-- A parent context for the C7 witness. -/
def c7Parent : Context := Context.mk "outer" none none (some 0)

/-- The evaluation of the C7 witness program under a parented context. -/
def c7Out : Outcome × Store :=
  visit noFS 99 c7Node (Context.mk "<program>" (some c7Parent) none c7Parent.symbolTable)
    initialStore

/-- The evaluation of the C7 witness program under a parentless context. -/
def c7OutTop : Outcome × Store :=
  visit noFS 99 c7Node (Context.mk "<program>" none none (some 0)) initialStore

/-- C7 witness: the two `run` context-construction equations at the
concrete one-token program `1`. -/
theorem claim7_import_shares_symbol_table_witness :
    run noFS 100 "<w>" c7Text (some c7Parent) none true initialStore =
      (.fullResult c7Out.1, c7Out.2)
    ∧ run noFS 100 "<w>" c7Text none none true initialStore =
      (.fullResult c7OutTop.1, c7OutTop.2) := by
  constructor
  · exact claim7_import_shares_symbol_table.1 noFS 99 "<w>" c7Text c7Parent none
      initialStore c7Toks c7PS c7Ast c7Node c7Out.1 c7Out.2 rfl (by rfl) rfl rfl rfl
  · exact claim7_import_shares_symbol_table.2.1 noFS 99 "<w>" c7Text none
      initialStore c7Toks c7PS c7Ast c7Node c7OutTop.1 c7OutTop.2 rfl (by rfl) rfl rfl rfl

theorem res_bind_crash {α β : Type} (m : String) (f : α → Res β) :
    (Res.crash m : Res α) >>= f = .crash m := rfl

theorem res_bind_timeout {α β : Type} (f : α → Res β) :
    (Res.timeout : Res α) >>= f = .timeout := rfl

/-- `Parser.statements` always wraps its collected statements in a
`ListNode`: a successful, error-free result carries a `listN` root. -/
theorem statements_success_node (fuel : Nat) (inF inL : Bool) (s s1 : PState)
    (res : PResult Node) (hst : statements fuel inF inL s = .ok (s1, res))
    (he : res.error = none) :
    ∃ elems p1 p2, res.node = some (Node.listN elems p1 p2) := by
  match fuel with
  | 0 => exact Res.noConfusion hst
  | f + 1 =>
    simp only [statements] at hst
    cases hsk : skipNewlinesLoop f s {} 0 with
    | crash m => rw [hsk, res_bind_crash] at hst; exact Res.noConfusion hst
    | timeout => rw [hsk, res_bind_timeout] at hst; exact Res.noConfusion hst
    | ok x =>
      obtain ⟨s2, r2, cnt⟩ := x
      rw [hsk, res_bind_ok] at hst
      cases hstm : statement f inF inL s2 with
      | crash m => rw [hstm, res_bind_crash] at hst; exact Res.noConfusion hst
      | timeout => rw [hstm, res_bind_timeout] at hst; exact Res.noConfusion hst
      | ok y =>
        obtain ⟨s3, sub⟩ := y
        rw [hstm, res_bind_ok] at hst
        simp only [PResult.register] at hst
        cases hsub : sub.error with
        | some e =>
          rw [hsub] at hst
          simp only [Option.isSome_some, reduceIte] at hst
          injection hst with h
          injection h with h1 h2
          rw [← h2] at he
          exact Option.noConfusion he
        | none =>
          rw [hsub] at hst
          cases hr2 : r2.error with
          | some e =>
            rw [hr2] at hst
            simp only [Option.isSome_some, reduceIte] at hst
            injection hst with h
            injection h with h1 h2
            rw [← h2] at he
            exact Option.noConfusion he
          | none =>
            rw [hr2] at hst
            simp only [Option.isSome_none, Bool.false_eq_true, reduceIte] at hst
            cases hnode : sub.node with
            | none => simp only [hnode] at hst; exact Res.noConfusion hst
            | some stmt =>
              simp only [hnode] at hst
              cases hpa : parse_any_additional_statements f inF inL true [stmt]
                  { error := none, node := r2.node,
                    lastRegisteredAdvanceCount := sub.advanceCount,
                    advanceCount := r2.advanceCount + sub.advanceCount,
                    toReverseCount := r2.toReverseCount } s3 with
              | crash m =>
                simp only [hpa, res_bind_crash] at hst
                exact Res.noConfusion hst
              | timeout =>
                simp only [hpa, res_bind_timeout] at hst
                exact Res.noConfusion hst
              | ok z =>
                obtain ⟨s4, sl, r4⟩ := z
                simp only [hpa, res_bind_ok, res_pure_ok] at hst
                injection hst with h
                injection h with h1 h2
                rw [← h2]
                exact ⟨sl, s.currentToken.posStart, s4.currentToken.posEnd, rfl⟩

/-- The C10 example program: the single expression `1 + 2`. -/
def c10Text : String := "1 + 2"

/-- The tokens of the C10 example program. -/
def c10Toks : List Token := resTokens (make_tokens 99 c10Text)

/-- The parser state after parsing the C10 example program. -/
def c10PS : PState :=
  resPState (Parser.parse 99 (Parser.init c10Toks)) (Parser.init c10Toks)

/-- The parse result of the C10 example program. -/
def c10Ast : PResult Node := resPResult (Parser.parse 99 (Parser.init c10Toks))

/-- A `<program>` context over the global table, for the C10 witness. -/
def c10Ctx : Context := Context.mk "<program>" none none (some 0)

/-- A literal node for the C10 witness: the number `1`. -/
def c10Num : Node :=
  .numberN (Token.make TOKEN_TYPE_INT (some (.num (.finite ⟨1, 1⟩))) ⟨0, 0, 0⟩ none)
    ⟨0, 0, 0⟩ ⟨0, 0, 0⟩

/-- The value the C10 witness literal evaluates to. -/
def c10NumVal : Value :=
  ((mkNumber (.finite ⟨1, 1⟩)).set_context (some c10Ctx)).set_pos
    (some ⟨0, 0, 0⟩) (some ⟨0, 0, 0⟩)

/-- C10.  The implicit list wrapper: an error-free parse always roots the
tree at a `ListNode` (first conjunct); evaluating it collects the top-level
statement values left to right (second conjunct) and wraps exactly the
collected values, in order, in a fresh `List` value (third conjunct); so
the one-statement program `1 + 2` runs to a one-element List holding the
Number 3, not the bare Number (closed conjunct). -/
theorem claim10_run_returns_statement_list :
    (∀ fuel s ps r, Parser.parse fuel s = .ok (ps, r) → r.error = none →
      ∃ elems p1 p2, r.node = some (Node.listN elems p1 p2))
    ∧ (∀ fs fuel n ns ctx st acc v st1,
        visit fs fuel n ctx st = (.success v, st1) →
        visitListElements fs (fuel + 1) (n :: ns) ctx st acc =
          visitListElements fs fuel ns ctx st1 (acc ++ [v]))
    ∧ (∀ fs fuel elems ps pe ctx st vs st1,
        visitListElements fs fuel elems ctx st [] = (.vals vs, st1) →
        visit fs (fuel + 1) (.listN elems ps pe) ctx st =
          (.success (((mkList st1.lists.length).set_context (some ctx)).set_pos
            (some ps) (some pe)), { st1 with lists := st1.lists ++ [vs] }))
    ∧ runTopValues (runProgram noFS 99 c10Text) =
        some [.number (.finite ⟨3, 1⟩)] := by
  refine ⟨?_, ?_, ?_, rfl⟩
  · intro fuel s ps r hp he
    simp only [Parser.parse] at hp
    cases hst : statements fuel false false s with
    | crash m => rw [hst, res_bind_crash] at hp; exact Res.noConfusion hp
    | timeout => rw [hst, res_bind_timeout] at hp; exact Res.noConfusion hp
    | ok x =>
      obtain ⟨s1, res⟩ := x
      rw [hst, res_bind_ok] at hp
      by_cases hc : res.error.isNone ∧ s1.currentToken.type ≠ TOKEN_TYPE_EOF
      · rw [if_pos hc, res_pure_ok] at hp
        injection hp with h
        injection h with h1 h2
        have hre : res.error = none := Option.isNone_iff_eq_none.mp hc.1
        rw [← h2] at he
        simp [PResult.failure, hre] at he
      · rw [if_neg hc, res_pure_ok] at hp
        injection hp with h
        injection h with h1 h2
        rw [← h2] at he ⊢
        exact statements_success_node fuel false false s s1 res hst he
  · intro fs fuel n ns ctx st acc v st1 h
    simp only [visitListElements, h]
  · intro fs fuel elems ps pe ctx st vs st1 h
    simp only [visit, h, Store.allocList]

/-- C10 witness: the root-shape lemma at the parsed `1 + 2`, one collection
step at a literal element, and the list-wrapping equation at a singleton
element list. -/
theorem claim10_run_returns_statement_list_witness :
    (∃ elems p1 p2, c10Ast.node = some (Node.listN elems p1 p2))
    ∧ visitListElements noFS 6 [c10Num] c10Ctx initialStore [] =
        visitListElements noFS 5 [] c10Ctx initialStore [c10NumVal]
    ∧ visit noFS 6 (.listN [c10Num] ⟨0, 0, 0⟩ ⟨0, 0, 0⟩) c10Ctx initialStore =
        (.success (((mkList initialStore.lists.length).set_context (some c10Ctx)).set_pos
          (some ⟨0, 0, 0⟩) (some ⟨0, 0, 0⟩)),
         { initialStore with lists := initialStore.lists ++ [[c10NumVal]] }) := by
  refine ⟨?_, ?_, ?_⟩
  · exact claim10_run_returns_statement_list.1 99 (Parser.init c10Toks) c10PS c10Ast
      (by rfl) rfl
  · exact claim10_run_returns_statement_list.2.1 noFS 5 c10Num [] c10Ctx initialStore
      [] c10NumVal initialStore rfl
  · exact claim10_run_returns_statement_list.2.2.1 noFS 5 [c10Num] ⟨0, 0, 0⟩ ⟨0, 0, 0⟩
      c10Ctx initialStore [c10NumVal] initialStore rfl

/-- The error held by an `error` outcome, or a blank error. -/
def outErr (o : Outcome) : RTErr :=
  match o with
  | .error e => e
  | _ => ⟨none, none, "", none⟩

/-- C5.  Signal consumption boundaries, as equations on the evaluator:
a binary-operation node forwards an error, return, break or continue
signal observed on its left child unchanged (conjuncts 1-4); a FOR loop
consumes a break from its own direct body, ending the collection, and
consumes a continue, skipping only the collection of that iteration
(5-6), while forwarding error and return signals (7-8); a WHILE loop does
the same (9-11); a function call converts a return signal from its own
body into the call's success value (12) and forwards an error signal
(13); and a top-level `run` hands a body error back as the error half of
its result pair — it is never consumed on the way up (14). -/
theorem claim5_signal_consumption_boundaries :
    (∀ fs fuel l opTok r ps pe ctx st e st1,
      visit fs fuel l ctx st = (.error e, st1) →
      visit fs (fuel + 1) (.binOp l opTok r ps pe) ctx st = (.error e, st1))
    ∧ (∀ fs fuel l opTok r ps pe ctx st rv st1,
      visit fs fuel l ctx st = (.funcReturn rv, st1) →
      visit fs (fuel + 1) (.binOp l opTok r ps pe) ctx st = (.funcReturn rv, st1))
    ∧ (∀ fs fuel l opTok r ps pe ctx st st1,
      visit fs fuel l ctx st = (.brk, st1) →
      visit fs (fuel + 1) (.binOp l opTok r ps pe) ctx st = (.brk, st1))
    ∧ (∀ fs fuel l opTok r ps pe ctx st st1,
      visit fs fuel l ctx st = (.cont, st1) →
      visit fs (fuel + 1) (.binOp l opTok r ps pe) ctx st = (.cont, st1))
    ∧ (∀ fs fuel varTok (i endV stepV : PyFloat) body ctx st elems tr st2,
      (if stepV.nonneg then i.blt endV else i.bgt endV) = true →
      ctx.symbolTable = some tr →
      visit fs fuel body ctx (SymbolTable.set st tr (tokStr varTok) (mkNumber i)) =
        (.brk, st2) →
      forLoop fs (fuel + 1) varTok i endV stepV body ctx st elems = (.done elems, st2))
    ∧ (∀ fs fuel varTok (i endV stepV : PyFloat) body ctx st elems tr st2,
      (if stepV.nonneg then i.blt endV else i.bgt endV) = true →
      ctx.symbolTable = some tr →
      visit fs fuel body ctx (SymbolTable.set st tr (tokStr varTok) (mkNumber i)) =
        (.cont, st2) →
      forLoop fs (fuel + 1) varTok i endV stepV body ctx st elems =
        forLoop fs fuel varTok (i.add stepV) endV stepV body ctx st2 elems)
    ∧ (∀ fs fuel varTok (i endV stepV : PyFloat) body ctx st elems tr e st2,
      (if stepV.nonneg then i.blt endV else i.bgt endV) = true →
      ctx.symbolTable = some tr →
      visit fs fuel body ctx (SymbolTable.set st tr (tokStr varTok) (mkNumber i)) =
        (.error e, st2) →
      forLoop fs (fuel + 1) varTok i endV stepV body ctx st elems =
        (.halt (.error e), st2))
    ∧ (∀ fs fuel varTok (i endV stepV : PyFloat) body ctx st elems tr rv st2,
      (if stepV.nonneg then i.blt endV else i.bgt endV) = true →
      ctx.symbolTable = some tr →
      visit fs fuel body ctx (SymbolTable.set st tr (tokStr varTok) (mkNumber i)) =
        (.funcReturn rv, st2) →
      forLoop fs (fuel + 1) varTok i endV stepV body ctx st elems =
        (.halt (.funcReturn rv), st2))
    ∧ (∀ fs fuel condN body ctx st elems cv st1 st2,
      visit fs fuel condN ctx st = (.success cv, st1) → cv.is_true = true →
      visit fs fuel body ctx st1 = (.brk, st2) →
      whileLoop fs (fuel + 1) condN body ctx st elems = (.done elems, st2))
    ∧ (∀ fs fuel condN body ctx st elems cv st1 st2,
      visit fs fuel condN ctx st = (.success cv, st1) → cv.is_true = true →
      visit fs fuel body ctx st1 = (.cont, st2) →
      whileLoop fs (fuel + 1) condN body ctx st elems =
        whileLoop fs fuel condN body ctx st2 elems)
    ∧ (∀ fs fuel condN body ctx st elems cv st1 e st2,
      visit fs fuel condN ctx st = (.success cv, st1) → cv.is_true = true →
      visit fs fuel body ctx st1 = (.error e, st2) →
      whileLoop fs (fuel + 1) condN body ctx st elems = (.halt (.error e), st2))
    ∧ (∀ fs fuel v name body argNames autoRet args st execCtx st1 rv st2,
      v.core = .func name body argNames autoRet →
      generate_new_context v name st = some (execCtx, st1) →
      args.length = argNames.length →
      visit fs fuel body execCtx (populateParams argNames args execCtx st1) =
        (.funcReturn rv, st2) →
      executeValue fs (fuel + 1) v args st = (.success rv, st2))
    ∧ (∀ fs fuel v name body argNames autoRet args st execCtx st1 e st2,
      v.core = .func name body argNames autoRet →
      generate_new_context v name st = some (execCtx, st1) →
      args.length = argNames.length →
      visit fs fuel body execCtx (populateParams argNames args execCtx st1) =
        (.error e, st2) →
      executeValue fs (fuel + 1) v args st = (.error e, st2))
    ∧ (∀ fs fuel fn text st tokens ps ast node e stv,
      make_tokens fuel text = .ok (tokens, none) →
      Parser.parse fuel (Parser.init tokens) = .ok (ps, ast) →
      ast.error = none → ast.node = some node →
      visit fs fuel node (Context.mk "<program>" none none (some 0)) st =
        (.error e, stv) →
      run fs (fuel + 1) fn text none none false st = (.plain none (some e), stv)) := by
  refine ⟨?_, ?_, ?_, ?_, ?_, ?_, ?_, ?_, ?_, ?_, ?_, ?_, ?_, ?_⟩
  · intro fs fuel l opTok r ps pe ctx st e st1 h
    simp only [visit, h]
  · intro fs fuel l opTok r ps pe ctx st rv st1 h
    simp only [visit, h]
  · intro fs fuel l opTok r ps pe ctx st st1 h
    simp only [visit, h]
  · intro fs fuel l opTok r ps pe ctx st st1 h
    simp only [visit, h]
  · intro fs fuel varTok i endV stepV body ctx st elems tr st2 hcond htab hbody
    simp only [forLoop, hcond, Bool.not_true, reduceIte, htab, hbody]
    rfl
  · intro fs fuel varTok i endV stepV body ctx st elems tr st2 hcond htab hbody
    simp only [forLoop, hcond, Bool.not_true, reduceIte, htab, hbody]
    rfl
  · intro fs fuel varTok i endV stepV body ctx st elems tr e st2 hcond htab hbody
    simp only [forLoop, hcond, Bool.not_true, reduceIte, htab, hbody]
    rfl
  · intro fs fuel varTok i endV stepV body ctx st elems tr rv st2 hcond htab hbody
    simp only [forLoop, hcond, Bool.not_true, reduceIte, htab, hbody]
    rfl
  · intro fs fuel condN body ctx st elems cv st1 st2 hcond htrue hbody
    simp only [whileLoop, hcond, htrue, Bool.not_true, reduceIte, hbody]
    rfl
  · intro fs fuel condN body ctx st elems cv st1 st2 hcond htrue hbody
    simp only [whileLoop, hcond, htrue, Bool.not_true, reduceIte, hbody]
    rfl
  · intro fs fuel condN body ctx st elems cv st1 e st2 hcond htrue hbody
    simp only [whileLoop, hcond, htrue, Bool.not_true, reduceIte, hbody]
    rfl
  · intro fs fuel v name body argNames autoRet args st execCtx st1 rv st2
      hcore hgen hlen hbody
    have h1 : ¬(args.length > argNames.length) := by omega
    have h2 : ¬(args.length < argNames.length) := by omega
    simp only [executeValue, hcore, hgen, if_neg h1, if_neg h2, hbody]
  · intro fs fuel v name body argNames autoRet args st execCtx st1 e st2
      hcore hgen hlen hbody
    have h1 : ¬(args.length > argNames.length) := by omega
    have h2 : ¬(args.length < argNames.length) := by omega
    simp only [executeValue, hcore, hgen, if_neg h1, if_neg h2, hbody]
  · intro fs fuel fn text st tokens ps ast node e stv hlex hparse herr hnode hv
    simp only [run, hlex, hparse, herr, hnode, hv, reduceIte]
    rfl

/-- A `<program>` context over the global table, for the C5 witness. -/
def c5Ctx : Context := Context.mk "<program>" none none (some 0)

/-- An error-producing node: access to the undefined variable `zz`. -/
def c5ErrNode : Node :=
  .varAccess (Token.make TOKEN_TYPE_IDENTIFIER (some (.str "zz")) ⟨0, 0, 0⟩ none)
    ⟨0, 0, 0⟩ ⟨0, 0, 0⟩

/-- The not-defined error `c5ErrNode` evaluates to. -/
def c5Err : RTErr := outErr (visit noFS 5 c5ErrNode c5Ctx initialStore).1

/-- A `+` operator token for the C5 witness. -/
def c5Plus : Token := Token.make TOKEN_TYPE_PLUS none ⟨0, 0, 0⟩ none

/-- A bare `RETURN` node. -/
def c5Ret : Node := .returnN none ⟨0, 0, 0⟩ ⟨0, 0, 0⟩

/-- A `BREAK` node. -/
def c5Brk : Node := .breakN ⟨0, 0, 0⟩ ⟨0, 0, 0⟩

/-- A `CONTINUE` node. -/
def c5Cont : Node := .continueN ⟨0, 0, 0⟩ ⟨0, 0, 0⟩

/-- The loop-variable token `i` for the C5 witness. -/
def c5Tok : Token := Token.make TOKEN_TYPE_IDENTIFIER (some (.str "i")) ⟨0, 0, 0⟩ none

/-- The store after the C5 FOR witness rebinds `i` to 0. -/
def c5StI : Store := SymbolTable.set initialStore 0 "i" (mkNumber (.finite ⟨0, 1⟩))

/-- The literal node `1` (a true condition). -/
def c5One : Node :=
  .numberN (Token.make TOKEN_TYPE_INT (some (.num (.finite ⟨1, 1⟩))) ⟨0, 0, 0⟩ none)
    ⟨0, 0, 0⟩ ⟨0, 0, 0⟩

/-- A parameterless function `f` whose body is a bare `RETURN`. -/
def c5Fun : Value := ⟨.func "f" c5Ret [] false, none, none, some c5Ctx⟩

/-- The execution context a call to `c5Fun` creates. -/
def c5ExecCtx : Context := Context.mk "f" (some c5Ctx) none (some 1)

/-- The store after allocating `c5Fun`'s execution table. -/
def c5St1 : Store :=
  { initialStore with tables := initialStore.tables ++ [{ symbols := [], parent := some 0 }] }

/-- A parameterless function `g` whose body evaluates to an error. -/
def c5FunErr : Value := ⟨.func "g" c5ErrNode [] true, none, none, some c5Ctx⟩

/-- The execution context a call to `c5FunErr` creates. -/
def c5GCtx : Context := Context.mk "g" (some c5Ctx) none (some 1)

/-- The error `c5FunErr`'s body evaluates to. -/
def c5ErrG : RTErr :=
  outErr (visit noFS 5 c5ErrNode c5GCtx (populateParams [] [] c5GCtx c5St1)).1

/-- The C5 run-to-top program text: the undefined variable `zz`. -/
def c5Text : String := "zz"

/-- The tokens of the C5 run-to-top program. -/
def c5Toks : List Token := resTokens (make_tokens 99 c5Text)

/-- The parser state after parsing the C5 run-to-top program. -/
def c5PS : PState :=
  resPState (Parser.parse 99 (Parser.init c5Toks)) (Parser.init c5Toks)

/-- The parse result of the C5 run-to-top program. -/
def c5Ast : PResult Node := resPResult (Parser.parse 99 (Parser.init c5Toks))

/-- The root node of the C5 run-to-top program. -/
def c5Node : Node := (c5Ast.node).getD (.breakN ⟨0, 0, 0⟩ ⟨0, 0, 0⟩)

/-- The error evaluating the C5 run-to-top program produces. -/
def c5RunErr : RTErr := outErr (visit noFS 99 c5Node c5Ctx initialStore).1

/-- C5 witness: every boundary equation at concrete inputs — forwarding
through a binary operation, consumption and forwarding by FOR and WHILE
bodies, conversion and forwarding at a call, and an error reaching the
top of a plain `run`. -/
theorem claim5_signal_consumption_boundaries_witness :
    visit noFS 6 (.binOp c5ErrNode c5Plus c5ErrNode ⟨0, 0, 0⟩ ⟨0, 0, 0⟩) c5Ctx
      initialStore = (.error c5Err, initialStore)
    ∧ visit noFS 6 (.binOp c5Ret c5Plus c5ErrNode ⟨0, 0, 0⟩ ⟨0, 0, 0⟩) c5Ctx
      initialStore = (.funcReturn Number.noneValue, initialStore)
    ∧ visit noFS 6 (.binOp c5Brk c5Plus c5ErrNode ⟨0, 0, 0⟩ ⟨0, 0, 0⟩) c5Ctx
      initialStore = (.brk, initialStore)
    ∧ visit noFS 6 (.binOp c5Cont c5Plus c5ErrNode ⟨0, 0, 0⟩ ⟨0, 0, 0⟩) c5Ctx
      initialStore = (.cont, initialStore)
    ∧ forLoop noFS 6 c5Tok (.finite ⟨0, 1⟩) (.finite ⟨3, 1⟩) (.finite ⟨1, 1⟩)
      c5Brk c5Ctx initialStore [] = (.done [], c5StI)
    ∧ forLoop noFS 6 c5Tok (.finite ⟨0, 1⟩) (.finite ⟨3, 1⟩) (.finite ⟨1, 1⟩)
      c5Cont c5Ctx initialStore [] =
      forLoop noFS 5 c5Tok ((PyFloat.finite ⟨0, 1⟩).add (.finite ⟨1, 1⟩))
        (.finite ⟨3, 1⟩) (.finite ⟨1, 1⟩) c5Cont c5Ctx c5StI []
    ∧ forLoop noFS 6 c5Tok (.finite ⟨0, 1⟩) (.finite ⟨3, 1⟩) (.finite ⟨1, 1⟩)
      c5ErrNode c5Ctx initialStore [] = (.halt (.error c5Err), c5StI)
    ∧ forLoop noFS 6 c5Tok (.finite ⟨0, 1⟩) (.finite ⟨3, 1⟩) (.finite ⟨1, 1⟩)
      c5Ret c5Ctx initialStore [] = (.halt (.funcReturn Number.noneValue), c5StI)
    ∧ whileLoop noFS 6 c5One c5Brk c5Ctx initialStore [] = (.done [], initialStore)
    ∧ whileLoop noFS 6 c5One c5Cont c5Ctx initialStore [] =
      whileLoop noFS 5 c5One c5Cont c5Ctx initialStore []
    ∧ whileLoop noFS 6 c5One c5ErrNode c5Ctx initialStore [] =
      (.halt (.error c5Err), initialStore)
    ∧ executeValue noFS 6 c5Fun [] initialStore = (.success Number.noneValue, c5St1)
    ∧ executeValue noFS 6 c5FunErr [] initialStore = (.error c5ErrG, c5St1)
    ∧ run noFS 100 "<w5>" c5Text none none false initialStore =
      (.plain none (some c5RunErr), initialStore) := by
  obtain ⟨h1, h2, h3, h4, h5, h6, h7, h8, h9, h10, h11, h12, h13, h14⟩ :=
    claim5_signal_consumption_boundaries
  refine ⟨?_, ?_, ?_, ?_, ?_, ?_, ?_, ?_, ?_, ?_, ?_, ?_, ?_, ?_⟩
  · exact h1 noFS 5 c5ErrNode c5Plus c5ErrNode ⟨0, 0, 0⟩ ⟨0, 0, 0⟩ c5Ctx initialStore
      c5Err initialStore (by rfl)
  · exact h2 noFS 5 c5Ret c5Plus c5ErrNode ⟨0, 0, 0⟩ ⟨0, 0, 0⟩ c5Ctx initialStore
      Number.noneValue initialStore (by rfl)
  · exact h3 noFS 5 c5Brk c5Plus c5ErrNode ⟨0, 0, 0⟩ ⟨0, 0, 0⟩ c5Ctx initialStore
      initialStore (by rfl)
  · exact h4 noFS 5 c5Cont c5Plus c5ErrNode ⟨0, 0, 0⟩ ⟨0, 0, 0⟩ c5Ctx initialStore
      initialStore (by rfl)
  · exact h5 noFS 5 c5Tok (.finite ⟨0, 1⟩) (.finite ⟨3, 1⟩) (.finite ⟨1, 1⟩)
      c5Brk c5Ctx initialStore [] 0 c5StI (by rfl) (by rfl) (by rfl)
  · exact h6 noFS 5 c5Tok (.finite ⟨0, 1⟩) (.finite ⟨3, 1⟩) (.finite ⟨1, 1⟩)
      c5Cont c5Ctx initialStore [] 0 c5StI (by rfl) (by rfl) (by rfl)
  · exact h7 noFS 5 c5Tok (.finite ⟨0, 1⟩) (.finite ⟨3, 1⟩) (.finite ⟨1, 1⟩)
      c5ErrNode c5Ctx initialStore [] 0 c5Err c5StI (by rfl) (by rfl) (by rfl)
  · exact h8 noFS 5 c5Tok (.finite ⟨0, 1⟩) (.finite ⟨3, 1⟩) (.finite ⟨1, 1⟩)
      c5Ret c5Ctx initialStore [] 0 Number.noneValue c5StI (by rfl) (by rfl) (by rfl)
  · exact h9 noFS 5 c5One c5Brk c5Ctx initialStore []
      (((mkNumber (.finite ⟨1, 1⟩)).set_context (some c5Ctx)).set_pos
        (some ⟨0, 0, 0⟩) (some ⟨0, 0, 0⟩)) initialStore initialStore
      (by rfl) (by rfl) (by rfl)
  · exact h10 noFS 5 c5One c5Cont c5Ctx initialStore []
      (((mkNumber (.finite ⟨1, 1⟩)).set_context (some c5Ctx)).set_pos
        (some ⟨0, 0, 0⟩) (some ⟨0, 0, 0⟩)) initialStore initialStore
      (by rfl) (by rfl) (by rfl)
  · exact h11 noFS 5 c5One c5ErrNode c5Ctx initialStore []
      (((mkNumber (.finite ⟨1, 1⟩)).set_context (some c5Ctx)).set_pos
        (some ⟨0, 0, 0⟩) (some ⟨0, 0, 0⟩)) initialStore c5Err initialStore
      (by rfl) (by rfl) (by rfl)
  · exact h12 noFS 5 c5Fun "f" c5Ret [] false [] initialStore c5ExecCtx c5St1
      Number.noneValue c5St1 (by rfl) (by rfl) (by rfl) (by rfl)
  · exact h13 noFS 5 c5FunErr "g" c5ErrNode [] true [] initialStore c5GCtx c5St1
      c5ErrG c5St1 (by rfl) (by rfl) (by rfl) (by rfl)
  · exact h14 noFS 99 "<w5>" c5Text initialStore c5Toks c5PS c5Ast c5Node c5RunErr
      initialStore (by rfl) (by rfl) (by rfl) (by rfl) (by rfl)

end Myopl
